import Mathlib

/-!
# WindowLab: adoption of a new client (`new.c`)

A shallow embedding of `make_new_client`, `get_mwm_hints`, `init_position` and
`reparent` from `new.c`.

* A `Client` record is the C `struct _Client`; C `int` and `Bool` fields are `Int`,
  X resource ids (`Window`, `Colormap`, `Atom`) are `Nat`.
* Pointers to clients are addresses (`Nat`). The registry is the list of addresses
  met from `head_client` along `next`, together with a heap from addresses to records.
* Every request sent to the display server and every call into another file of
  WindowLab is appended to a log, together with the value `c->ignore_unmap` has at
  that moment.
* What the display server answers is an input (`Replies`).
* C `int` is 32 bits wide: the result of an addition or a subtraction on `int` is
  reduced into the range from `-2 ^ 31` to `2 ^ 31 - 1` (`wrapInt`), and conversions to
  `unsigned int`, `CARD32` and `INT32` reduce modulo `2 ^ 32`.
* Functions and macros of WindowLab that `new.c` uses but does not define
  (`windowlab.h`, `client.c`, `misc.c`, `taskbar.c`) are parameters (`Ext`).
-/

namespace WindowLab

/-! ## Constants of the X11 headers -/

/-- The value of `IsViewable` in `X11/X.h`. -/
def IsViewable : Int := 2
/-- The value of `NormalState` in `X11/Xutil.h`. -/
def NormalState : Int := 1
/-- The value of `IconicState` in `X11/Xutil.h`. -/
def IconicState : Int := 3
/-- The value of `StateHint` in `X11/Xutil.h`, `(1L << 1)`. -/
def StateHint : Int := 2
/-- The value of `Success` in `X11/X.h`. -/
def Success : Int := 0
/-- The value of `None` in `X11/X.h`. -/
def None : Nat := 0

/-! ## Data model -/

/-- The record `XSizeHints` of `X11/Xutil.h` (the aspect fields are left out; `new.c` only
stores the record). -/
structure XSizeHints where
  flags : Int
  x : Int
  y : Int
  width : Int
  height : Int
  min_width : Int
  min_height : Int
  max_width : Int
  max_height : Int
  width_inc : Int
  height_inc : Int
  base_width : Int
  base_height : Int
  win_gravity : Int
  deriving DecidableEq, Repr

/-- The record `struct _Client` as `new.c` uses it. `name` is the title cached by
`update_title`. -/
structure Client where
  name : String
  size : XSizeHints
  window : Nat
  frame : Nat
  trans : Nat
  cmap : Nat
  x : Int
  y : Int
  width : Int
  height : Int
  ignore_unmap : Int
  hidden : Int
  was_hidden : Int
  has_been_shaped : Int
  has_title : Int
  has_border : Int
  xftdraw : Nat
  deriving DecidableEq, Repr

/-- The part of `XWindowAttributes` that `make_new_client` reads. -/
structure XWindowAttributes where
  x : Int
  y : Int
  width : Int
  height : Int
  colormap : Nat
  map_state : Int
  deriving DecidableEq, Repr

/-- The part of `XWMHints` that `make_new_client` reads. -/
structure XWMHints where
  flags : Int
  initial_state : Int
  deriving DecidableEq, Repr

/-- The record `PropMwmHints`: four `CARD32` fields and the `INT32` field `inputMode`. -/
structure PropMwmHints where
  flags : Nat
  functions : Nat
  decorations : Nat
  inputMode : Int
  status : Nat
  deriving DecidableEq, Repr

/-- What `XGetWindowProperty` hands back in `get_mwm_hints`: the status it returns and
the values it stores through its pointer arguments; `data i` is `data[i]`. -/
structure PropReply where
  success : Int
  real_type : Nat
  real_format : Int
  items_read : Nat
  items_left : Nat
  data : Nat → Nat

/-- The second argument of `gravitate`. -/
inductive Gravity where
  | APPLY_GRAVITY
  | REMOVE_GRAVITY
  deriving DecidableEq, Repr

/-- Requests to the display server and calls into other files, as they appear in `new.c`. -/
inductive Req where
  | XGrabServer
  | XGetTransientForHint (w : Nat)
  | XGetWindowAttributes (w : Nat)
  | XAllocSizeHints
  | XGetWMNormalHints (w : Nat)
  | update_title
  | XGetWindowProperty (w : Nat)
  | err
  | XFree
  | get_mouse_position
  | gravitate (m : Gravity)
  | set_wm_state (state : Int)
  | XGetWMHints (w : Nat)
  | fix_position
  | XCreateWindow (x y width height border : Int)
  | XShapeSelectInput (w : Nat)
  | set_shape
  | XAddToSaveSet (w : Nat)
  | XSelectInput (w : Nat)
  | XSetWindowBorderWidth (w : Nat) (width : Int)
  | XResizeWindow (w : Nat) (width height : Int)
  | XReparentWindow (w parent : Nat) (x y : Int)
  | send_config
  | XftDrawCreate (frame : Nat)
  | get_wm_state
  | XMapWindow (w : Nat)
  | XMapRaised (w : Nat)
  | XUnmapWindow (w : Nat)
  | check_focus
  | XSync
  | XUngrabServer
  | reorder_clients_by_x_position
  | redraw_taskbar
  deriving DecidableEq, Repr

/-- A log entry: the request and the value of `c->ignore_unmap` when it is issued. -/
abbrev Log := List (Req × Int)

/-- Append one request to the log, with the counter of `c` as it is now. -/
def emit (log : Log) (c : Client) (r : Req) : Log := log ++ [(r, c.ignore_unmap)]

/-- The globals `make_new_client` reads and writes, and the state of the display server
it depends on. -/
structure WM where
  /-- Addresses of the clients met from `head_client` along `next`. -/
  clients : List Nat
  /-- Contents of the client records, by address. -/
  heap : Nat → Client
  /-- The global `focused_client`; `none` is `NULL`. -/
  focused_client : Option Nat
  /-- The global `topmost_client`; `none` is `NULL`. -/
  topmost_client : Option Nat
  /-- The global `shape`: whether the shape extension is there. -/
  shape : Bool
  /-- The managed state of each window, as the display server holds it: what
  `set_wm_state` writes and `get_wm_state` reads. -/
  wm_state : Nat → Int

/-- What the display server and the C runtime answer during one `make_new_client`. -/
structure Replies where
  /-- Address returned by `malloc`. -/
  addr : Nat
  /-- Contents of the fresh block before it is initialised. -/
  raw : Client
  /-- Contents of the local `mhints` before it is written. -/
  mhints : PropMwmHints
  trans : Nat
  attr : XWindowAttributes
  size : XSizeHints
  prop : PropReply
  /-- Result of `XGetWMHints`; `none` is `NULL`. -/
  hints : Option XWMHints
  mousex : Int
  mousey : Int
  /-- Window id returned by `XCreateWindow`. -/
  frame : Nat
  /-- Result of `XftDrawCreate`. -/
  xftdraw : Nat

/-- What `new.c` takes from the rest of WindowLab: the macros and constants of
`windowlab.h`, the build flags, and the functions of `client.c`, `misc.c` and
`taskbar.c` it calls. -/
structure Ext where
  /-- Built with `-DSHAPE`. -/
  SHAPE : Bool
  /-- Built with `-DXFT`. -/
  XFT : Bool
  MINWINWIDTH : Int
  MINWINHEIGHT : Int
  MWM_HINTS_DECORATIONS : Nat
  MWM_DECOR_ALL : Nat
  MWM_DECOR_BORDER : Nat
  MWM_DECOR_TITLE : Nat
  PROP_MWM_HINTS_ELEMENTS : Nat
  /-- The global atom `mwm_hints`. -/
  mwm_hints : Nat
  TITLEHEIGHT : Client → Int
  BORDERWIDTH : Client → Int
  update_title : Client → Client
  gravitate : Client → Gravity → Client
  fix_position : Client → Client
  set_shape : Client → Client
  /-- The effect of `check_focus(c)` on `focused_client`, given its value before, the
  address of `c` and the record. -/
  check_focus : Option Nat → Nat → Client → Option Nat
  /-- The order of the registry after `reorder_clients_by_x_position()`. -/
  reorder_clients_by_x_position : (Nat → Client) → List Nat → List Nat

/-! ## Conversions of C -/

/-- Conversion to `CARD32`. -/
def toCARD32 (n : Nat) : Nat := n % 2 ^ 32

/-- Conversion of an unsigned value to a 32-bit `int` (`INT32`, `Bool`). -/
def toInt32 (n : Nat) : Int :=
  if n % 2 ^ 32 < 2 ^ 31 then ((n % 2 ^ 32 : Nat) : Int) else ((n % 2 ^ 32 : Nat) : Int) - 2 ^ 32

/-- The value a C `int` holds when the exact result of `+`, `-` or `++` on `int` is `z`:
`z` itself when it lies between `INT_MIN` and `INT_MAX`, and otherwise `z` reduced
modulo `2 ^ 32` into that range, which is what the compiled program computes. -/
def wrapInt (z : Int) : Int := (z + 2 ^ 31) % 2 ^ 32 - 2 ^ 31

/-- Conversion of an `int` argument to `unsigned int`. -/
def toUInt (z : Int) : Int := z % 2 ^ 32

/-! ## The managed state of a window -/

/-- Modelled from the spec: `set_wm_state(c, state)` of `misc.c`, which `new.c` calls
and does not define. It records `state` as the managed state of the client's window
("set initial managed-state to normal, overridden by an explicit initial-state hint"). -/
def set_wm_state (wm_state : Nat → Int) (c : Client) (state : Int) : Nat → Int :=
  Function.update wm_state c.window state

/-- Modelled from the spec: `get_wm_state(c)` of `misc.c`, which `new.c` calls and does
not define. It returns the managed state of the client's window ("if managed-state is
not iconic"). -/
def get_wm_state (wm_state : Nat → Int) (c : Client) : Int :=
  wm_state c.window

/-! ## The functions of `new.c` -/

/-- The walk to the tail of the list in `make_new_client`:
`if (head_client == NULL) head_client = c; else { p = head_client;
while (p->next != NULL) p = p->next; p->next = c; }`. -/
def append_tail : List Nat → Nat → List Nat
  | [], c => [c]
  | [p], c => [p, c]
  | p :: q :: rest, c => p :: append_tail (q :: rest) c

/-- The function `get_mwm_hints(w, &hints)`: the value returned, the record behind `hints`
afterwards, and the log. -/
def get_mwm_hints (E : Ext) (c : Client) (log : Log) (w : Nat) (p : PropReply)
    (hints : PropMwmHints) : Bool × PropMwmHints × Log :=
  let log := emit log c (Req.XGetWindowProperty w)
  if p.success ≠ Success then
    (false, hints, emit log c Req.err)
  else if p.real_type = None then
    (false, hints, log)
  else if p.real_type ≠ E.mwm_hints ∨ p.real_format ≠ 32 then
    (false, hints, emit log c Req.err)
  else if p.items_read < E.PROP_MWM_HINTS_ELEMENTS then
    (false, hints, emit log c Req.err)
  else
    let hints := { hints with flags := toCARD32 (p.data 0) }
    let hints := { hints with functions := toCARD32 (p.data 1) }
    let hints := { hints with decorations := toCARD32 (p.data 2) }
    let hints := { hints with inputMode := toInt32 (p.data 3) }
    let hints := { hints with status := toCARD32 (p.data 4) }
    (true, hints, emit log c Req.XFree)

/-- The function `init_position(c)`; `mousex` and `mousey` are what `get_mouse_position`
stores. -/
def init_position (E : Ext) (c : Client) (log : Log) (mousex mousey : Int) : Client × Log :=
  let c := if c.width < E.MINWINWIDTH then { c with width := E.MINWINWIDTH } else c
  let c := if c.height < E.MINWINHEIGHT then { c with height := E.MINWINHEIGHT } else c
  if c.x = 0 ∧ c.y = 0 then
    let log := emit log c Req.get_mouse_position
    let c := { c with x := mousex }
    let c := { c with y := wrapInt (mousey + E.TITLEHEIGHT c) }
    let log := emit log c (Req.gravitate Gravity.REMOVE_GRAVITY)
    let c := E.gravitate c Gravity.REMOVE_GRAVITY
    (c, log)
  else
    (c, log)

/-- The function `reparent(c)`; `frame` is the id `XCreateWindow` returns. -/
def reparent (E : Ext) (shape : Bool) (c : Client) (log : Log) (frame : Nat) : Client × Log :=
  let log := emit log c (Req.XCreateWindow c.x (wrapInt (c.y - E.TITLEHEIGHT c))
    (toUInt c.width) (toUInt (wrapInt (c.height + E.TITLEHEIGHT c))) (toUInt (E.BORDERWIDTH c)))
  let c := { c with frame := frame }
  let (c, log) :=
    if E.SHAPE && shape then
      let log := emit log c (Req.XShapeSelectInput c.window)
      let log := emit log c Req.set_shape
      (E.set_shape c, log)
    else (c, log)
  let log := emit log c (Req.XAddToSaveSet c.window)
  let log := emit log c (Req.XSelectInput c.window)
  let log := emit log c (Req.XSetWindowBorderWidth c.window 0)
  let log := emit log c (Req.XResizeWindow c.window (toUInt c.width) (toUInt c.height))
  let log := emit log c (Req.XReparentWindow c.window c.frame 0 (E.TITLEHEIGHT c))
  let log := emit log c Req.send_config
  (c, log)

/-- The function `make_new_client(w)`: the globals afterwards and the log of the run. The record
being set up, `*c`, is carried as a value and stored at its address at the end; the
list walk only writes `next` fields, which the order of `clients` stands for. -/
def make_new_client (E : Ext) (s : WM) (w : Nat) (r : Replies) : WM × Log :=
  let c := r.raw
  let clients := append_tail s.clients r.addr
  let log := emit [] c Req.XGrabServer
  let log := emit log c (Req.XGetTransientForHint w)
  let c := { c with trans := r.trans }
  let log := emit log c (Req.XGetWindowAttributes w)
  let attr := r.attr
  let c := { c with window := w }
  let c := { c with ignore_unmap := 0 }
  let c := { c with hidden := 0 }
  let c := { c with was_hidden := 0 }
  let c := if E.SHAPE then { c with has_been_shaped := 0 } else c
  let c := { c with x := attr.x }
  let c := { c with y := attr.y }
  let c := { c with width := attr.width }
  let c := { c with height := attr.height }
  let c := { c with cmap := attr.colormap }
  let log := emit log c Req.XAllocSizeHints
  let log := emit log c (Req.XGetWMNormalHints c.window)
  let c := { c with size := r.size }
  let log := emit log c Req.update_title
  let c := E.update_title c
  let c := { c with has_title := 1 }
  let c := { c with has_border := 1 }
  let (got, mhints, log) := get_mwm_hints E c log c.window r.prop r.mhints
  let c :=
    if got then
      if mhints.flags &&& E.MWM_HINTS_DECORATIONS ≠ 0 ∧ ¬ (mhints.decorations &&& E.MWM_DECOR_ALL ≠ 0) then
        let c := { c with has_title := toInt32 (mhints.decorations &&& E.MWM_DECOR_TITLE) }
        { c with has_border := toInt32 (mhints.decorations &&& E.MWM_DECOR_BORDER) }
      else c
    else c
  let c := { c with ignore_unmap := wrapInt (c.ignore_unmap + 1) }
  let (c, log, wm_state) :=
    if attr.map_state ≠ IsViewable then
      let (c, log) := init_position E c log r.mousex r.mousey
      let log := emit log c (Req.set_wm_state NormalState)
      let wm_state := set_wm_state s.wm_state c NormalState
      let log := emit log c (Req.XGetWMHints w)
      match r.hints with
      | some hints =>
        let (log, wm_state) :=
          if Int.land hints.flags StateHint ≠ 0 then
            (emit log c (Req.set_wm_state hints.initial_state),
              set_wm_state wm_state c hints.initial_state)
          else (log, wm_state)
        (c, emit log c Req.XFree, wm_state)
      | none => (c, log, wm_state)
    else (c, log, s.wm_state)
  let log := emit log c Req.fix_position
  let c := E.fix_position c
  let log := emit log c (Req.gravitate Gravity.APPLY_GRAVITY)
  let c := E.gravitate c Gravity.APPLY_GRAVITY
  let (c, log) := reparent E s.shape c log r.frame
  let (c, log) :=
    if E.XFT then
      (({ c with xftdraw := r.xftdraw } : Client), emit log c (Req.XftDrawCreate c.frame))
    else (c, log)
  let log := emit log c Req.get_wm_state
  let (c, log, topmost) :=
    if get_wm_state wm_state c ≠ IconicState then
      let log := emit log c (Req.XMapWindow c.window)
      let log := emit log c (Req.XMapRaised c.frame)
      (c, log, some r.addr)
    else
      let c := { c with hidden := 1 }
      if attr.map_state = IsViewable then
        let c := { c with ignore_unmap := wrapInt (c.ignore_unmap + 1) }
        (c, emit log c (Req.XUnmapWindow c.window), s.topmost_client)
      else (c, log, s.topmost_client)
  let log := emit log c Req.check_focus
  let focused := E.check_focus s.focused_client r.addr c
  let focused := if focused = none then some r.addr else focused
  let log := emit log c Req.XSync
  let log := emit log c Req.XUngrabServer
  let heap := Function.update s.heap r.addr c
  let log := emit log c Req.reorder_clients_by_x_position
  let clients := E.reorder_clients_by_x_position heap clients
  let log := emit log c Req.redraw_taskbar
  ({ clients := clients, heap := heap, focused_client := focused, topmost_client := topmost,
     shape := s.shape, wm_state := wm_state }, log)

/-! ## `make_new_client` in stages

The body of `make_new_client`, cut at lines 86, 97, 113, 121 and 139 of `new.c`.
`make_new_client_eq` below shows that the stages, run one after the other, are
`make_new_client`; the proofs go stage by stage. -/

/-- Lines 62 to 84: grab the server, read the attributes, initialise the record. -/
def stage_init (E : Ext) (w : Nat) (r : Replies) : Client × Log :=
  let c := r.raw
  let log := emit [] c Req.XGrabServer
  let log := emit log c (Req.XGetTransientForHint w)
  let c := { c with trans := r.trans }
  let log := emit log c (Req.XGetWindowAttributes w)
  let attr := r.attr
  let c := { c with window := w }
  let c := { c with ignore_unmap := 0 }
  let c := { c with hidden := 0 }
  let c := { c with was_hidden := 0 }
  let c := if E.SHAPE then { c with has_been_shaped := 0 } else c
  let c := { c with x := attr.x }
  let c := { c with y := attr.y }
  let c := { c with width := attr.width }
  let c := { c with height := attr.height }
  let c := { c with cmap := attr.colormap }
  let log := emit log c Req.XAllocSizeHints
  let log := emit log c (Req.XGetWMNormalHints c.window)
  let c := { c with size := r.size }
  let log := emit log c Req.update_title
  let c := E.update_title c
  let c := { c with has_title := 1 }
  let c := { c with has_border := 1 }
  (c, log)

/-- Lines 86 to 93: the decoration hints. -/
def stage_decor (E : Ext) (r : Replies) (c : Client) (log : Log) : Client × Log :=
  let (got, mhints, log) := get_mwm_hints E c log c.window r.prop r.mhints
  let c :=
    if got then
      if mhints.flags &&& E.MWM_HINTS_DECORATIONS ≠ 0 ∧ ¬ (mhints.decorations &&& E.MWM_DECOR_ALL ≠ 0) then
        let c := { c with has_title := toInt32 (mhints.decorations &&& E.MWM_DECOR_TITLE) }
        { c with has_border := toInt32 (mhints.decorations &&& E.MWM_DECOR_BORDER) }
      else c
    else c
  (c, log)

/-- Lines 97 to 111: the first increment of the counter, and the initial state of a
window that is not viewable. -/
def stage_state (E : Ext) (s : WM) (w : Nat) (r : Replies) (c : Client) (log : Log) :
    Client × Log × (Nat → Int) :=
  let c := { c with ignore_unmap := wrapInt (c.ignore_unmap + 1) }
  if r.attr.map_state ≠ IsViewable then
    let (c, log) := init_position E c log r.mousex r.mousey
    let log := emit log c (Req.set_wm_state NormalState)
    let wm_state := set_wm_state s.wm_state c NormalState
    let log := emit log c (Req.XGetWMHints w)
    match r.hints with
    | some hints =>
      let (log, wm_state) :=
        if Int.land hints.flags StateHint ≠ 0 then
          (emit log c (Req.set_wm_state hints.initial_state),
            set_wm_state wm_state c hints.initial_state)
        else (log, wm_state)
      (c, emit log c Req.XFree, wm_state)
    | none => (c, log, wm_state)
  else (c, log, s.wm_state)

/-- Lines 113 to 119: final geometry, the frame, the Xft drawable. -/
def stage_frame (E : Ext) (s : WM) (r : Replies) (c : Client) (log : Log) : Client × Log :=
  let log := emit log c Req.fix_position
  let c := E.fix_position c
  let log := emit log c (Req.gravitate Gravity.APPLY_GRAVITY)
  let c := E.gravitate c Gravity.APPLY_GRAVITY
  let (c, log) := reparent E s.shape c log r.frame
  if E.XFT then
    (({ c with xftdraw := r.xftdraw } : Client), emit log c (Req.XftDrawCreate c.frame))
  else (c, log)

/-- Lines 121 to 136: map the window, or hide it. -/
def stage_map (s : WM) (r : Replies) (wm_state : Nat → Int) (c : Client) (log : Log) :
    Client × Log × Option Nat :=
  let log := emit log c Req.get_wm_state
  if get_wm_state wm_state c ≠ IconicState then
    let log := emit log c (Req.XMapWindow c.window)
    let log := emit log c (Req.XMapRaised c.frame)
    (c, log, some r.addr)
  else
    let c := { c with hidden := 1 }
    if r.attr.map_state = IsViewable then
      let c := { c with ignore_unmap := wrapInt (c.ignore_unmap + 1) }
      (c, emit log c (Req.XUnmapWindow c.window), s.topmost_client)
    else (c, log, s.topmost_client)

/-- Lines 139 to 149: focus, release the server, reorder, redraw; with the list walk
of lines 47 to 59. -/
def stage_finish (E : Ext) (s : WM) (r : Replies) (wm_state : Nat → Int) (c : Client)
    (log : Log) (topmost : Option Nat) : WM × Log :=
  let clients := append_tail s.clients r.addr
  let log := emit log c Req.check_focus
  let focused := E.check_focus s.focused_client r.addr c
  let focused := if focused = none then some r.addr else focused
  let log := emit log c Req.XSync
  let log := emit log c Req.XUngrabServer
  let heap := Function.update s.heap r.addr c
  let log := emit log c Req.reorder_clients_by_x_position
  let clients := E.reorder_clients_by_x_position heap clients
  let log := emit log c Req.redraw_taskbar
  ({ clients := clients, heap := heap, focused_client := focused, topmost_client := topmost,
     shape := s.shape, wm_state := wm_state }, log)

/-- The stages in sequence. -/
def stages (E : Ext) (s : WM) (w : Nat) (r : Replies) : WM × Log :=
  let a := stage_init E w r
  let b := stage_decor E r a.1 a.2
  let d := stage_state E s w r b.1 b.2
  let f := stage_frame E s r d.1 d.2.1
  let m := stage_map s r d.2.2 f.1 f.2
  stage_finish E s r d.2.2 m.1 m.2.1 m.2.2

/-! ## Vocabulary of the statements -/

/-- Each collaborator that is handed the client writes only the fields it is there for:
`update_title` the cached title, `gravitate` the position, `fix_position` the position
and the size, `set_shape` the shaped flag. -/
structure Framed (E : Ext) : Prop where
  update_title : ∀ c, E.update_title c = { c with name := (E.update_title c).name }
  gravitate : ∀ c m, E.gravitate c m =
    { c with x := (E.gravitate c m).x, y := (E.gravitate c m).y }
  fix_position : ∀ c, E.fix_position c =
    { c with x := (E.fix_position c).x, y := (E.fix_position c).y,
             width := (E.fix_position c).width, height := (E.fix_position c).height }
  set_shape : ∀ c, E.set_shape c =
    { c with has_been_shaped := (E.set_shape c).has_been_shaped }

/-- The fields that none of the collaborators writes. -/
def Client.kept (c : Client) : Nat × Nat × Int × Int × Int × Int :=
  (c.window, c.frame, c.ignore_unmap, c.hidden, c.has_title, c.has_border)

/-- The requests that make the display server unmap the application window. -/
def unmapping : Req → Bool
  | Req.XReparentWindow _ _ _ _ => true
  | Req.XUnmapWindow _ => true
  | _ => false

/-- The entries of the log that are unmapping requests, in order. -/
def unmaps (log : Log) : Log := log.filter (fun e => unmapping e.1)

/-- The state that `get_wm_state(c)` returns at line 121, in terms of the inputs. -/
def managed_state (s : WM) (w : Nat) (r : Replies) : Int :=
  if r.attr.map_state ≠ IsViewable then
    match r.hints with
    | some hints => if Int.land hints.flags StateHint ≠ 0 then hints.initial_state else NormalState
    | none => NormalState
  else s.wm_state w

/-- The two requests of the pointer-based placement in `init_position`. -/
def placing : Req → Bool
  | Req.get_mouse_position => true
  | Req.gravitate Gravity.REMOVE_GRAVITY => true
  | _ => false

/-- The entries of the log that belong to the pointer-based placement, in order. -/
def placings (log : Log) : Log := log.filter (fun e => placing e.1)

/-- The window handles of the registry, in its order. -/
def windows (s : WM) : List Nat := s.clients.map (fun p => (s.heap p).window)

/-! ## A concrete build, for evaluating the definitions -/


/-- The Motif values of the `MWM_*` constants, a title bar of 20 pixels when the client
has a title, a border of 2 pixels when it has one, and collaborators that do the least:
`gravitate` and `fix_position` leave the position, `check_focus` leaves `focused_client`,
`reorder_clients_by_x_position` leaves the order. -/
def E0 : Ext where
  SHAPE := true
  XFT := false
  MINWINWIDTH := 80
  MINWINHEIGHT := 20
  MWM_HINTS_DECORATIONS := 2
  MWM_DECOR_ALL := 1
  MWM_DECOR_BORDER := 2
  MWM_DECOR_TITLE := 8
  PROP_MWM_HINTS_ELEMENTS := 5
  mwm_hints := 300
  TITLEHEIGHT := fun c => if c.has_title ≠ 0 then 20 else 0
  BORDERWIDTH := fun c => if c.has_border ≠ 0 then 2 else 0
  update_title := fun c => { c with name := "xterm" }
  gravitate := fun c _ => c
  fix_position := fun c => c
  set_shape := fun c => c
  check_focus := fun f _ _ => f
  reorder_clients_by_x_position := fun _ l => l

def sizeHints0 : XSizeHints :=
  ⟨0, 0, 0, 0, 0, 0, 0, 0, 0, 0, 0, 0, 0, 0⟩

/-- An uninitialised client record. -/
def raw0 : Client :=
  { name := "", size := sizeHints0, window := 91, frame := 92, trans := 93, cmap := 94,
    x := -7, y := -8, width := -9, height := -10, ignore_unmap := 55, hidden := 56,
    was_hidden := 57, has_been_shaped := 58, has_title := 59, has_border := 60, xftdraw := 61 }

/-- A window without the decoration property: `XGetWindowProperty` succeeds with type `None`. -/
def noProp : PropReply :=
  { success := 0, real_type := 0, real_format := 0, items_read := 0, items_left := 0,
    data := fun _ => 0 }

/-- An empty registry, nothing focused, every window in the withdrawn state (0). -/
def wm0 : WM :=
  { clients := [], heap := fun _ => raw0, focused_client := none, topmost_client := none,
    shape := false, wm_state := fun _ => 0 }

/-- A viewable 200x100 window at (30, 40) whose WM hints say `StateHint` with
`initial_state = IconicState`; the pointer is at (100, 200). -/
def replies0 : Replies :=
  { addr := 1000, raw := raw0, mhints := ⟨0, 0, 0, 0, 0⟩, trans := 0,
    attr := { x := 30, y := 40, width := 200, height := 100, colormap := 5, map_state := 2 },
    size := sizeHints0, prop := noProp, hints := some ⟨2, 3⟩, mousex := 100, mousey := 200,
    frame := 501, xftdraw := 0 }

/-- The state `wm0` with every window in the iconic state. -/
def wmIconic : WM := { wm0 with wm_state := fun _ => IconicState }

/-- A window that is not viewable, with no WM hints; otherwise as `replies0`. -/
def repliesNew : Replies :=
  { replies0 with
    attr := { x := 0, y := 0, width := 200, height := 100, colormap := 5, map_state := 0 }
    hints := none }

/-- A decoration property that reads well, with the given `flags` and `decorations`. -/
def mwmProp (flags decorations : Nat) : PropReply :=
  { success := 0, real_type := 300, real_format := 32, items_read := 5, items_left := 0,
    data := fun i => if i = 0 then flags else if i = 2 then decorations else 0 }

/-- A decoration property of the right type whose format is 8 instead of 32. -/
def badProp : PropReply :=
  { success := 0, real_type := 300, real_format := 8, items_read := 5, items_left := 0,
    data := fun _ => 2 }

/-- A registry with one client, at address 900, for window 7. -/
def wmOne : WM :=
  { wm0 with
    clients := [900]
    heap := fun p => if p = 900 then { raw0 with window := 7 } else raw0 }

/-- A window that is not viewable and whose WM hints say `StateHint` with
`initial_state = IconicState`. -/
def repliesIconic : Replies :=
  { replies0 with
    attr := { x := 30, y := 40, width := 200, height := 100, colormap := 5, map_state := 0 } }

/-- A registry of two clients, at addresses 700 and 800, for windows 700 and 800. -/
def wmTwo : WM :=
  { wm0 with
    clients := [700, 800]
    heap := fun q => { raw0 with window := q } }

/-! ## Theorems -/

theorem make_new_client_eq (E : Ext) (s : WM) (w : Nat) (r : Replies) :
    make_new_client E s w r = stages E s w r := rfl

theorem wrapInt_of_fits (z : Int) (hlo : -2 ^ 31 ≤ z) (hhi : z < 2 ^ 31) : wrapInt z = z := by
  unfold wrapInt
  omega

theorem wrapInt_one : wrapInt 1 = 1 := by decide

theorem wrapInt_two : wrapInt 2 = 2 := by decide

theorem Framed.kept_update_title {E : Ext} (h : Framed E) (c : Client) :
    (E.update_title c).kept = c.kept := by
  rw [h.update_title]; rfl

theorem Framed.kept_gravitate {E : Ext} (h : Framed E) (c : Client) (m : Gravity) :
    (E.gravitate c m).kept = c.kept := by
  rw [h.gravitate]; rfl

theorem Framed.kept_fix_position {E : Ext} (h : Framed E) (c : Client) :
    (E.fix_position c).kept = c.kept := by
  rw [h.fix_position]; rfl

theorem Framed.kept_set_shape {E : Ext} (h : Framed E) (c : Client) :
    (E.set_shape c).kept = c.kept := by
  rw [h.set_shape]; rfl

theorem kept_window {c : Client} {t : Nat × Nat × Int × Int × Int × Int} (h : c.kept = t) :
    c.window = t.1 :=
  congrArg (fun t => t.1) h

theorem kept_frame {c : Client} {t : Nat × Nat × Int × Int × Int × Int} (h : c.kept = t) :
    c.frame = t.2.1 :=
  congrArg (fun t => t.2.1) h

theorem kept_ignore_unmap {c : Client} {t : Nat × Nat × Int × Int × Int × Int}
    (h : c.kept = t) : c.ignore_unmap = t.2.2.1 :=
  congrArg (fun t => t.2.2.1) h

theorem kept_hidden {c : Client} {t : Nat × Nat × Int × Int × Int × Int} (h : c.kept = t) :
    c.hidden = t.2.2.2.1 :=
  congrArg (fun t => t.2.2.2.1) h

theorem kept_has_title {c : Client} {t : Nat × Nat × Int × Int × Int × Int} (h : c.kept = t) :
    c.has_title = t.2.2.2.2.1 :=
  congrArg (fun t => t.2.2.2.2.1) h

theorem kept_has_border {c : Client} {t : Nat × Nat × Int × Int × Int × Int} (h : c.kept = t) :
    c.has_border = t.2.2.2.2.2 :=
  congrArg (fun t => t.2.2.2.2.2) h

theorem unmaps_append (l₁ l₂ : Log) : unmaps (l₁ ++ l₂) = unmaps l₁ ++ unmaps l₂ := by
  simp [unmaps]

theorem unmaps_emit (log : Log) (c : Client) (r : Req) :
    unmaps (emit log c r) = unmaps log ++ (if unmapping r then [(r, c.ignore_unmap)] else []) := by
  simp only [emit, unmaps_append]
  cases h : unmapping r <;> simp [unmaps, h]

theorem prefix_emit (log : Log) (c : Client) (r : Req) : log <+: emit log c r :=
  List.prefix_append _ _

theorem get_mwm_hints_log (E : Ext) (c : Client) (log : Log) (w : Nat) (p : PropReply)
    (hints : PropMwmHints) :
    log <+: (get_mwm_hints E c log w p hints).2.2 ∧
    unmaps (get_mwm_hints E c log w p hints).2.2 = unmaps log := by
  unfold get_mwm_hints
  simp only []
  split_ifs <;>
    exact ⟨by simp [emit, List.append_assoc], by simp [unmaps_emit, unmapping]⟩

theorem init_position_kept (E : Ext) (h : Framed E) (c : Client) (log : Log)
    (mx my : Int) : (init_position E c log mx my).1.kept = c.kept := by
  unfold init_position
  simp only []
  split_ifs <;> first | rfl | (rw [h.kept_gravitate]; rfl)

theorem init_position_log (E : Ext) (c : Client) (log : Log) (mx my : Int) :
    log <+: (init_position E c log mx my).2 ∧
    unmaps (init_position E c log mx my).2 = unmaps log := by
  unfold init_position
  simp only []
  split_ifs <;>
    exact ⟨by simp [emit, List.append_assoc], by simp [unmaps_emit, unmapping]⟩

theorem Framed.update_title_kept {E : Ext} (h : Framed E) (c : Client) :
    (E.update_title c).window = c.window ∧ (E.update_title c).frame = c.frame ∧
    (E.update_title c).ignore_unmap = c.ignore_unmap ∧ (E.update_title c).hidden = c.hidden ∧
    (E.update_title c).has_title = c.has_title ∧ (E.update_title c).has_border = c.has_border := by
  have e := h.kept_update_title c
  exact ⟨kept_window e, kept_frame e, kept_ignore_unmap e, kept_hidden e, kept_has_title e,
    kept_has_border e⟩

theorem Framed.gravitate_kept {E : Ext} (h : Framed E) (c : Client) (m : Gravity) :
    (E.gravitate c m).window = c.window ∧ (E.gravitate c m).frame = c.frame ∧
    (E.gravitate c m).ignore_unmap = c.ignore_unmap ∧ (E.gravitate c m).hidden = c.hidden ∧
    (E.gravitate c m).has_title = c.has_title ∧ (E.gravitate c m).has_border = c.has_border := by
  have e := h.kept_gravitate c m
  exact ⟨kept_window e, kept_frame e, kept_ignore_unmap e, kept_hidden e, kept_has_title e,
    kept_has_border e⟩

theorem Framed.fix_position_kept {E : Ext} (h : Framed E) (c : Client) :
    (E.fix_position c).window = c.window ∧ (E.fix_position c).frame = c.frame ∧
    (E.fix_position c).ignore_unmap = c.ignore_unmap ∧ (E.fix_position c).hidden = c.hidden ∧
    (E.fix_position c).has_title = c.has_title ∧ (E.fix_position c).has_border = c.has_border := by
  have e := h.kept_fix_position c
  exact ⟨kept_window e, kept_frame e, kept_ignore_unmap e, kept_hidden e, kept_has_title e,
    kept_has_border e⟩

theorem Framed.set_shape_kept {E : Ext} (h : Framed E) (c : Client) :
    (E.set_shape c).window = c.window ∧ (E.set_shape c).frame = c.frame ∧
    (E.set_shape c).ignore_unmap = c.ignore_unmap ∧ (E.set_shape c).hidden = c.hidden ∧
    (E.set_shape c).has_title = c.has_title ∧ (E.set_shape c).has_border = c.has_border := by
  have e := h.kept_set_shape c
  exact ⟨kept_window e, kept_frame e, kept_ignore_unmap e, kept_hidden e, kept_has_title e,
    kept_has_border e⟩

theorem unmaps_nil : unmaps [] = [] := rfl

theorem unmaps_cons (e : Req × Int) (l : Log) :
    unmaps (e :: l) = if unmapping e.1 then e :: unmaps l else unmaps l := by
  cases h : unmapping e.1 <;> simp [unmaps, h]

theorem stage_init_kept (E : Ext) (h : Framed E) (w : Nat) (r : Replies) :
    (stage_init E w r).1.kept = (w, r.raw.frame, 0, 0, 1, 1) := by
  unfold stage_init
  simp only [Client.kept, h.update_title_kept]
  split_ifs <;> rfl

theorem stage_init_unmaps (E : Ext) (w : Nat) (r : Replies) :
    unmaps (stage_init E w r).2 = [] := by
  unfold stage_init
  simp [unmaps_emit, unmapping, unmaps_nil]

theorem get_mwm_hints_malformed (E : Ext) (c : Client) (log : Log) (w : Nat) (p : PropReply)
    (hints : PropMwmHints)
    (hbad : p.real_type ≠ E.mwm_hints ∨ p.real_format ≠ 32 ∨
      p.items_read < E.PROP_MWM_HINTS_ELEMENTS) :
    (get_mwm_hints E c log w p hints).1 = false ∧
    (get_mwm_hints E c log w p hints).2.1 = hints := by
  unfold get_mwm_hints
  simp only []
  split_ifs with h1 h2 h3 h4
  · exact ⟨rfl, rfl⟩
  · exact ⟨rfl, rfl⟩
  · exact ⟨rfl, rfl⟩
  · exact ⟨rfl, rfl⟩
  · exfalso
    rcases hbad with hb | hb | hb
    · exact h3 (Or.inl hb)
    · exact h3 (Or.inr hb)
    · exact h4 hb

theorem stage_decor_kept (E : Ext) (r : Replies) (c : Client) (log : Log) :
    (stage_decor E r c log).1.window = c.window ∧
    (stage_decor E r c log).1.frame = c.frame ∧
    (stage_decor E r c log).1.ignore_unmap = c.ignore_unmap ∧
    (stage_decor E r c log).1.hidden = c.hidden := by
  unfold stage_decor
  simp only []
  split_ifs <;> exact ⟨rfl, rfl, rfl, rfl⟩

theorem stage_decor_log (E : Ext) (r : Replies) (c : Client) (log : Log) :
    log <+: (stage_decor E r c log).2 ∧ unmaps (stage_decor E r c log).2 = unmaps log := by
  unfold stage_decor
  exact get_mwm_hints_log E c log c.window r.prop r.mhints

theorem stage_decor_false (E : Ext) (r : Replies) (c : Client) (log : Log)
    (hf : (get_mwm_hints E c log c.window r.prop r.mhints).1 = false) :
    (stage_decor E r c log).1 = c := by
  unfold stage_decor
  simp only [hf]
  rfl

theorem stage_decor_true (E : Ext) (r : Replies) (c : Client) (log : Log)
    (ht : (get_mwm_hints E c log c.window r.prop r.mhints).1 = true) :
    (stage_decor E r c log).1 =
      if (get_mwm_hints E c log c.window r.prop r.mhints).2.1.flags &&& E.MWM_HINTS_DECORATIONS ≠ 0 ∧
          ¬ ((get_mwm_hints E c log c.window r.prop r.mhints).2.1.decorations &&& E.MWM_DECOR_ALL ≠ 0)
      then
        { c with
          has_title := toInt32
            ((get_mwm_hints E c log c.window r.prop r.mhints).2.1.decorations &&& E.MWM_DECOR_TITLE)
          has_border := toInt32
            ((get_mwm_hints E c log c.window r.prop r.mhints).2.1.decorations &&& E.MWM_DECOR_BORDER) }
      else c := by
  unfold stage_decor
  simp only [ht]
  rfl

theorem get_mwm_hints_read (E : Ext) (c : Client) (log : Log) (w : Nat) (p : PropReply)
    (hints : PropMwmHints) (h1 : p.success = Success) (h2 : p.real_type = E.mwm_hints)
    (h3 : E.mwm_hints ≠ None) (h4 : p.real_format = 32)
    (h5 : E.PROP_MWM_HINTS_ELEMENTS ≤ p.items_read) :
    (get_mwm_hints E c log w p hints).1 = true ∧
    (get_mwm_hints E c log w p hints).2.1 =
      { flags := toCARD32 (p.data 0), functions := toCARD32 (p.data 1),
        decorations := toCARD32 (p.data 2), inputMode := toInt32 (p.data 3),
        status := toCARD32 (p.data 4) } := by
  unfold get_mwm_hints
  simp only []
  rw [if_neg (by simpa using h1), if_neg (by rw [h2]; exact h3),
    if_neg (by simp [h2, h4]), if_neg (by omega)]
  exact ⟨rfl, rfl⟩

theorem stage_state_kept (E : Ext) (h : Framed E) (s : WM) (w : Nat) (r : Replies) (c : Client)
    (log : Log) :
    (stage_state E s w r c log).1.kept =
      (c.window, c.frame, wrapInt (c.ignore_unmap + 1), c.hidden, c.has_title, c.has_border) := by
  unfold stage_state
  simp only []
  split_ifs with hv
  · cases hh : r.hints with
    | none => exact init_position_kept E h _ log r.mousex r.mousey
    | some hints => exact init_position_kept E h _ log r.mousex r.mousey
  · rfl

theorem stage_state_log (E : Ext) (s : WM) (w : Nat) (r : Replies) (c : Client) (log : Log) :
    log <+: (stage_state E s w r c log).2.1 ∧
    unmaps (stage_state E s w r c log).2.1 = unmaps log := by
  unfold stage_state
  simp only []
  have hp := init_position_log E { c with ignore_unmap := wrapInt (c.ignore_unmap + 1) } log r.mousex r.mousey
  split_ifs with hv
  · cases hh : r.hints with
    | none =>
      refine ⟨hp.1.trans ?_, ?_⟩
      · simp [emit, List.append_assoc]
      · simp [unmaps_emit, unmapping, hp.2]
    | some hints =>
      refine ⟨hp.1.trans ?_, ?_⟩
      · simp only []
        split_ifs <;> simp [emit, List.append_assoc]
      · simp only []
        split_ifs <;> simp [unmaps_emit, unmapping, hp.2]
  · exact ⟨List.prefix_refl _, rfl⟩

theorem stage_state_viewable (E : Ext) (s : WM) (w : Nat) (r : Replies) (c : Client) (log : Log)
    (hv : r.attr.map_state = IsViewable) :
    (stage_state E s w r c log).2.2 = s.wm_state := by
  unfold stage_state
  simp [hv]

theorem stage_state_normal (E : Ext) (h : Framed E) (s : WM) (w : Nat) (r : Replies) (c : Client)
    (log : Log) (hv : r.attr.map_state ≠ IsViewable)
    (hh : ∀ hints, r.hints = some hints → Int.land hints.flags StateHint = 0) :
    (stage_state E s w r c log).2.2 = Function.update s.wm_state c.window NormalState := by
  have hw : (init_position E { c with ignore_unmap := wrapInt (c.ignore_unmap + 1) } log
      r.mousex r.mousey).1.window = c.window := kept_window
    (init_position_kept E h { c with ignore_unmap := wrapInt (c.ignore_unmap + 1) } log r.mousex r.mousey)
  unfold stage_state
  simp only []
  rw [if_pos hv]
  cases hr : r.hints with
  | none => simp only [set_wm_state, hw]
  | some hints => simp only [set_wm_state, hh hints hr, hw]; rfl

theorem stage_state_hinted (E : Ext) (h : Framed E) (s : WM) (w : Nat) (r : Replies) (c : Client)
    (log : Log) (hv : r.attr.map_state ≠ IsViewable) (hints : XWMHints)
    (hr : r.hints = some hints) (hf : Int.land hints.flags StateHint ≠ 0) :
    (stage_state E s w r c log).2.2 c.window = hints.initial_state := by
  have hw : (init_position E { c with ignore_unmap := wrapInt (c.ignore_unmap + 1) } log
      r.mousex r.mousey).1.window = c.window := kept_window
    (init_position_kept E h { c with ignore_unmap := wrapInt (c.ignore_unmap + 1) } log r.mousex r.mousey)
  unfold stage_state
  simp only []
  rw [if_pos hv]
  simp only [set_wm_state, hr, hw, if_pos hf]
  simp

theorem reparent_kept (E : Ext) (h : Framed E) (shape : Bool) (c : Client) (log : Log)
    (frame : Nat) :
    (reparent E shape c log frame).1.kept =
      (c.window, frame, c.ignore_unmap, c.hidden, c.has_title, c.has_border) := by
  unfold reparent
  simp only []
  split_ifs
  · rw [h.kept_set_shape]; rfl
  · rfl

theorem reparent_log (E : Ext) (h : Framed E) (shape : Bool) (c : Client) (log : Log)
    (frame : Nat) :
    log <+: (reparent E shape c log frame).2 ∧
    unmaps (reparent E shape c log frame).2 = unmaps log ++
      [(Req.XReparentWindow c.window frame 0 (E.TITLEHEIGHT (reparent E shape c log frame).1),
        c.ignore_unmap)] := by
  unfold reparent
  simp only []
  split_ifs
  · refine ⟨by simp [emit, List.append_assoc], ?_⟩
    simp [unmaps_emit, unmapping, h.set_shape_kept]
  · refine ⟨by simp [emit, List.append_assoc], ?_⟩
    simp [unmaps_emit, unmapping]

theorem stage_frame_kept (E : Ext) (h : Framed E) (s : WM) (r : Replies) (c : Client)
    (log : Log) :
    (stage_frame E s r c log).1.kept =
      (c.window, r.frame, c.ignore_unmap, c.hidden, c.has_title, c.has_border) := by
  have hk := reparent_kept E h s.shape
    (E.gravitate (E.fix_position c) Gravity.APPLY_GRAVITY)
    (emit (emit log c Req.fix_position) (E.fix_position c) (Req.gravitate Gravity.APPLY_GRAVITY))
    r.frame
  simp only [h.gravitate_kept, h.fix_position_kept] at hk
  unfold stage_frame
  simp only []
  split_ifs
  · rw [← hk]; rfl
  · exact hk

theorem stage_frame_log (E : Ext) (h : Framed E) (s : WM) (r : Replies) (c : Client)
    (log : Log) :
    log <+: (stage_frame E s r c log).2 ∧
    ∃ th, unmaps (stage_frame E s r c log).2 = unmaps log ++
      [(Req.XReparentWindow c.window r.frame 0 th, c.ignore_unmap)] := by
  have hl := reparent_log E h s.shape
    (E.gravitate (E.fix_position c) Gravity.APPLY_GRAVITY)
    (emit (emit log c Req.fix_position) (E.fix_position c) (Req.gravitate Gravity.APPLY_GRAVITY))
    r.frame
  obtain ⟨hl1, hl2⟩ := hl
  simp [h.gravitate_kept, h.fix_position_kept, unmaps_emit, unmapping] at hl2
  have hp : log <+: emit (emit log c Req.fix_position) (E.fix_position c)
      (Req.gravitate Gravity.APPLY_GRAVITY) := by
    simp [emit, List.append_assoc]
  unfold stage_frame
  simp only []
  split_ifs
  · refine ⟨(hp.trans hl1).trans (prefix_emit _ _ _), ?_⟩
    refine ⟨E.TITLEHEIGHT (reparent E s.shape (E.gravitate (E.fix_position c) Gravity.APPLY_GRAVITY)
      (emit (emit log c Req.fix_position) (E.fix_position c)
        (Req.gravitate Gravity.APPLY_GRAVITY)) r.frame).1, ?_⟩
    rw [unmaps_emit, hl2]
    simp [unmapping]
  · exact ⟨hp.trans hl1, _, hl2⟩

theorem stage_map_shown (s : WM) (r : Replies) (wm_state : Nat → Int) (c : Client) (log : Log)
    (hs : wm_state c.window ≠ IconicState) :
    stage_map s r wm_state c log =
      (c, emit (emit (emit log c Req.get_wm_state) c (Req.XMapWindow c.window)) c
        (Req.XMapRaised c.frame), some r.addr) := by
  unfold stage_map get_wm_state
  simp only []
  rw [if_pos hs]

theorem stage_map_hidden (s : WM) (r : Replies) (wm_state : Nat → Int) (c : Client) (log : Log)
    (hs : wm_state c.window = IconicState) :
    stage_map s r wm_state c log =
      if r.attr.map_state = IsViewable then
        ({ c with hidden := 1, ignore_unmap := wrapInt (c.ignore_unmap + 1) },
          emit (emit log c Req.get_wm_state)
            { c with hidden := 1, ignore_unmap := wrapInt (c.ignore_unmap + 1) }
            (Req.XUnmapWindow c.window), s.topmost_client)
      else ({ c with hidden := 1 }, emit log c Req.get_wm_state, s.topmost_client) := by
  unfold stage_map get_wm_state
  simp only []
  rw [if_neg (by simpa using hs)]

theorem stage_finish_heap (E : Ext) (s : WM) (r : Replies) (wm_state : Nat → Int) (c : Client)
    (log : Log) (topmost : Option Nat) :
    (stage_finish E s r wm_state c log topmost).1.heap = Function.update s.heap r.addr c := rfl

theorem stage_finish_log (E : Ext) (s : WM) (r : Replies) (wm_state : Nat → Int) (c : Client)
    (log : Log) (topmost : Option Nat) :
    (stage_finish E s r wm_state c log topmost).2 =
      log ++ [(Req.check_focus, c.ignore_unmap), (Req.XSync, c.ignore_unmap),
        (Req.XUngrabServer, c.ignore_unmap), (Req.reorder_clients_by_x_position, c.ignore_unmap),
        (Req.redraw_taskbar, c.ignore_unmap)] := by
  unfold stage_finish
  simp [emit, List.append_assoc]

theorem stage_state_managed (E : Ext) (h : Framed E) (s : WM) (w : Nat) (r : Replies)
    (c : Client) (log : Log) :
    (stage_state E s w r c log).2.2 c.window = managed_state s c.window r := by
  unfold managed_state
  by_cases hv : r.attr.map_state = IsViewable
  · rw [stage_state_viewable E s w r c log hv, if_neg (by simpa using hv)]
  · rw [if_pos hv]
    cases hr : r.hints with
    | none =>
      rw [stage_state_normal E h s w r c log hv (by simp [hr])]
      simp
    | some hints =>
      by_cases hf : Int.land hints.flags StateHint = 0
      · rw [stage_state_normal E h s w r c log hv
          (by intro k hk; rw [hr] at hk; cases hk; exact hf)]
        simp [hf]
      · rw [stage_state_hinted E h s w r c log hv hints hr hf]
        simp [hf]

/-- The record and the log when `make_new_client` returns, for collaborators that keep to
their fields: `t` and `b` are the decoration flags after line 93. -/
theorem make_new_client_summary (E : Ext) (h : Framed E) (s : WM) (w : Nat) (r : Replies) :
    ∃ (t b th : Int),
      (stage_decor E r (stage_init E w r).1 (stage_init E w r).2).1.has_title = t ∧
      (stage_decor E r (stage_init E w r).1 (stage_init E w r).2).1.has_border = b ∧
      ((managed_state s w r ≠ IconicState ∧
          ((make_new_client E s w r).1.heap r.addr).kept = (w, r.frame, 1, 0, t, b) ∧
          unmaps (make_new_client E s w r).2 = [(Req.XReparentWindow w r.frame 0 th, 1)] ∧
          (make_new_client E s w r).1.topmost_client = some r.addr ∧
          (Req.XMapWindow w, 1) ∈ (make_new_client E s w r).2 ∧
          (Req.XMapRaised r.frame, 1) ∈ (make_new_client E s w r).2) ∨
       (managed_state s w r = IconicState ∧ r.attr.map_state = IsViewable ∧
          ((make_new_client E s w r).1.heap r.addr).kept = (w, r.frame, 2, 1, t, b) ∧
          unmaps (make_new_client E s w r).2 =
            [(Req.XReparentWindow w r.frame 0 th, 1), (Req.XUnmapWindow w, 2)] ∧
          (make_new_client E s w r).1.topmost_client = s.topmost_client) ∨
       (managed_state s w r = IconicState ∧ r.attr.map_state ≠ IsViewable ∧
          ((make_new_client E s w r).1.heap r.addr).kept = (w, r.frame, 1, 1, t, b) ∧
          unmaps (make_new_client E s w r).2 = [(Req.XReparentWindow w r.frame 0 th, 1)] ∧
          (make_new_client E s w r).1.topmost_client = s.topmost_client)) := by
  rw [make_new_client_eq]
  simp only [stages]
  -- the stages, one by one
  have ka := stage_init_kept E h w r
  have ua := stage_init_unmaps E w r
  generalize stage_init E w r = a at ka ua ⊢
  have kb := stage_decor_kept E r a.1 a.2
  have ub := (stage_decor_log E r a.1 a.2).2
  generalize stage_decor E r a.1 a.2 = b at kb ub ⊢
  have kd := stage_state_kept E h s w r b.1 b.2
  have ud := (stage_state_log E s w r b.1 b.2).2
  have md := stage_state_managed E h s w r b.1 b.2
  generalize stage_state E s w r b.1 b.2 = d at kd ud md ⊢
  have kf := stage_frame_kept E h s r d.1 d.2.1
  obtain ⟨_, th, uf⟩ := stage_frame_log E h s r d.1 d.2.1
  generalize stage_frame E s r d.1 d.2.1 = f at kf uf ⊢
  -- the kept fields along the way
  have wa : a.1.window = w := kept_window ka
  have ia : a.1.ignore_unmap = 0 := kept_ignore_unmap ka
  have ha : a.1.hidden = 0 := kept_hidden ka
  obtain ⟨wb, _, ib, hb⟩ := kb
  have wd : d.1.window = w := (kept_window kd).trans (wb.trans wa)
  have id : d.1.ignore_unmap = 1 := by
    rw [kept_ignore_unmap kd]
    show wrapInt (b.1.ignore_unmap + 1) = 1
    rw [ib, ia]
    exact wrapInt_one
  have hd : d.1.hidden = 0 := (kept_hidden kd).trans (hb.trans ha)
  have wf : f.1.window = w := (kept_window kf).trans wd
  have ff : f.1.frame = r.frame := kept_frame kf
  have if_ : f.1.ignore_unmap = 1 := (kept_ignore_unmap kf).trans id
  have hf : f.1.hidden = 0 := (kept_hidden kf).trans hd
  have tf : f.1.has_title = b.1.has_title := (kept_has_title kf).trans (kept_has_title kd)
  have bf : f.1.has_border = b.1.has_border := (kept_has_border kf).trans (kept_has_border kd)
  rw [wb, wa] at md
  rw [ub, ua] at ud
  rw [ud, wd, id] at uf
  refine ⟨b.1.has_title, b.1.has_border, th, rfl, rfl, ?_⟩
  by_cases hs : managed_state s w r = IconicState
  · have hs2 : d.2.2 f.1.window = IconicState := by rw [wf, md, hs]
    by_cases hv : r.attr.map_state = IsViewable
    · refine Or.inr (Or.inl ⟨hs, hv, ?_⟩)
      rw [stage_map_hidden s r d.2.2 f.1 f.2 hs2, if_pos hv]
      simp only [stage_finish_heap, stage_finish_log, Function.update_same]
      refine ⟨?_, ?_, rfl⟩
      · simp only [Client.kept, wf, ff, if_, tf, bf]
        rw [show (1 : Int) + 1 = 2 from rfl, wrapInt_two]
      · simp [unmaps_append, unmaps_emit, unmaps_cons, unmaps_nil, unmapping, uf, wf, if_,
          wrapInt_two]
    · refine Or.inr (Or.inr ⟨hs, hv, ?_⟩)
      rw [stage_map_hidden s r d.2.2 f.1 f.2 hs2, if_neg hv]
      simp only [stage_finish_heap, stage_finish_log, Function.update_same]
      refine ⟨?_, ?_, rfl⟩
      · simp only [Client.kept, wf, ff, if_, tf, bf]
      · simp [unmaps_append, unmaps_emit, unmaps_cons, unmaps_nil, unmapping, uf]
  · have hs2 : d.2.2 f.1.window ≠ IconicState := by rw [wf, md]; exact hs
    refine Or.inl ⟨hs, ?_⟩
    rw [stage_map_shown s r d.2.2 f.1 f.2 hs2]
    simp only [stage_finish_heap, stage_finish_log, Function.update_same]
    refine ⟨?_, ?_, rfl, ?_, ?_⟩
    · simp only [Client.kept, wf, ff, if_, tf, bf, hf]
    · simp [unmaps_append, unmaps_emit, unmaps_cons, unmaps_nil, unmapping, uf]
    · simp [emit, wf, if_]
    · simp [emit, ff, if_]

theorem placings_nil : placings [] = [] := rfl

theorem placings_append (l₁ l₂ : Log) : placings (l₁ ++ l₂) = placings l₁ ++ placings l₂ := by
  simp [placings]

theorem placings_cons (e : Req × Int) (l : Log) :
    placings (e :: l) = if placing e.1 then e :: placings l else placings l := by
  cases h : placing e.1 <;> simp [placings, h]

theorem placings_emit (log : Log) (c : Client) (r : Req) :
    placings (emit log c r) =
      placings log ++ (if placing r then [(r, c.ignore_unmap)] else []) := by
  simp only [emit, placings_append]
  cases h : placing r <;> simp [placings, h]

theorem Framed.update_title_xy {E : Ext} (h : Framed E) (c : Client) :
    (E.update_title c).x = c.x ∧ (E.update_title c).y = c.y := by
  constructor <;> rw [h.update_title]

theorem stage_init_xy (E : Ext) (h : Framed E) (w : Nat) (r : Replies) :
    (stage_init E w r).1.x = r.attr.x ∧ (stage_init E w r).1.y = r.attr.y := by
  unfold stage_init
  simp only [h.update_title_xy, and_self]

theorem stage_init_placings (E : Ext) (w : Nat) (r : Replies) :
    placings (stage_init E w r).2 = [] := by
  unfold stage_init
  simp [placings_emit, placing, placings_nil]

theorem stage_decor_xy (E : Ext) (r : Replies) (c : Client) (log : Log) :
    (stage_decor E r c log).1.x = c.x ∧ (stage_decor E r c log).1.y = c.y := by
  unfold stage_decor
  simp only []
  split_ifs <;> exact ⟨rfl, rfl⟩

theorem stage_decor_placings (E : Ext) (r : Replies) (c : Client) (log : Log) :
    placings (stage_decor E r c log).2 = placings log := by
  unfold stage_decor get_mwm_hints
  simp only []
  split_ifs <;> simp [placings_emit, placing]

theorem init_position_placings (E : Ext) (c : Client) (log : Log) (mx my : Int) :
    placings (init_position E c log mx my).2 = placings log ++
      (if c.x = 0 ∧ c.y = 0 then
        [(Req.get_mouse_position, c.ignore_unmap),
          (Req.gravitate Gravity.REMOVE_GRAVITY, c.ignore_unmap)]
      else []) := by
  unfold init_position
  simp only []
  split_ifs <;> simp_all [placings_emit, placing]

theorem stage_state_placings (E : Ext) (s : WM) (w : Nat) (r : Replies) (c : Client)
    (log : Log) :
    placings (stage_state E s w r c log).2.1 = placings log ++
      (if r.attr.map_state ≠ IsViewable ∧ c.x = 0 ∧ c.y = 0 then
        [(Req.get_mouse_position, wrapInt (c.ignore_unmap + 1)),
          (Req.gravitate Gravity.REMOVE_GRAVITY, wrapInt (c.ignore_unmap + 1))]
      else []) := by
  have hp := init_position_placings E { c with ignore_unmap := wrapInt (c.ignore_unmap + 1) } log
    r.mousex r.mousey
  unfold stage_state
  simp only []
  by_cases hv : r.attr.map_state = IsViewable
  · simp [hv]
  · rw [if_pos hv]
    cases hh : r.hints with
    | none => simp [placings_emit, placing, hp, hv]
    | some hints =>
      simp only []
      split_ifs <;> simp_all [placings_emit, placing]

theorem reparent_placings (E : Ext) (shape : Bool) (c : Client) (log : Log) (frame : Nat) :
    placings (reparent E shape c log frame).2 = placings log := by
  unfold reparent
  simp only []
  split_ifs <;> simp [placings_emit, placing]

theorem stage_frame_placings (E : Ext) (s : WM) (r : Replies) (c : Client) (log : Log) :
    placings (stage_frame E s r c log).2 = placings log := by
  unfold stage_frame
  simp only []
  split_ifs <;> simp [placings_emit, placing, reparent_placings]

theorem stage_map_placings (s : WM) (r : Replies) (wm_state : Nat → Int) (c : Client)
    (log : Log) : placings (stage_map s r wm_state c log).2.1 = placings log := by
  unfold stage_map
  simp only []
  split_ifs <;> simp [placings_emit, placing]

theorem stage_finish_placings (E : Ext) (s : WM) (r : Replies) (wm_state : Nat → Int)
    (c : Client) (log : Log) (topmost : Option Nat) :
    placings (stage_finish E s r wm_state c log topmost).2 = placings log := by
  rw [stage_finish_log, placings_append]
  simp [placings_cons, placings_nil, placing]

/-- The pointer-based placement within a whole run of `make_new_client`. -/
theorem make_new_client_placings (E : Ext) (h : Framed E) (s : WM) (w : Nat) (r : Replies) :
    placings (make_new_client E s w r).2 =
      if r.attr.map_state ≠ IsViewable ∧ r.attr.x = 0 ∧ r.attr.y = 0 then
        [(Req.get_mouse_position, 1), (Req.gravitate Gravity.REMOVE_GRAVITY, 1)]
      else [] := by
  rw [make_new_client_eq]
  simp only [stages]
  rw [stage_finish_placings, stage_map_placings, stage_frame_placings, stage_state_placings,
    stage_decor_placings, stage_init_placings, (stage_decor_xy _ _ _ _).1,
    (stage_decor_xy _ _ _ _).2, (stage_init_xy E h w r).1, (stage_init_xy E h w r).2,
    (stage_decor_kept _ _ _ _).2.2.1, kept_ignore_unmap (stage_init_kept E h w r)]
  simp [wrapInt_one]

theorem append_tail_eq (l : List Nat) (a : Nat) : append_tail l a = l ++ [a] := by
  induction l with
  | nil => rfl
  | cons p t ih =>
    cases t with
    | nil => rfl
    | cons q rest =>
      show p :: append_tail (q :: rest) a = p :: (q :: rest ++ [a])
      rw [ih]

theorem windows_update (l : List Nat) (heap : Nat → Client) (a : Nat) (c : Client)
    (ha : a ∉ l) :
    l.map (fun p => (Function.update heap a c p).window) = l.map (fun p => (heap p).window) := by
  apply List.map_congr_left
  intro p hp
  have hne : p ≠ a := fun e => ha (e ▸ hp)
  simp [Function.update_noteq hne]

/-- C7: a client whose position is not exactly (0,0) goes through `init_position`
without a pointer query and without a call of `gravitate`: nothing is added to the log
and `x` and `y` stay as they are. On any client the pointer is read, and `gravitate` is
called with `REMOVE_GRAVITY`, if and only if `x = 0` and `y = 0`. Within
`make_new_client`, a window that is not viewable and whose attributes give a position
other than (0,0) is adopted without either request. -/
theorem C7_init_position_keeps_hinted_position (E : Ext) (c : Client) (log : Log)
    (mx my : Int) (hpos : ¬ (c.x = 0 ∧ c.y = 0)) :
    (init_position E c log mx my).2 = log ∧
    (init_position E c log mx my).1.x = c.x ∧
    (init_position E c log mx my).1.y = c.y ∧
    (∀ d : Client,
      ((∃ n, (Req.get_mouse_position, n) ∈ (init_position E d [] mx my).2) ↔ (d.x = 0 ∧ d.y = 0)) ∧
      ((∃ n, (Req.gravitate Gravity.REMOVE_GRAVITY, n) ∈ (init_position E d [] mx my).2) ↔
        (d.x = 0 ∧ d.y = 0))) ∧
    (∀ (s : WM) (w : Nat) (r : Replies), Framed E → r.attr.map_state ≠ IsViewable →
      ¬ (r.attr.x = 0 ∧ r.attr.y = 0) → placings (make_new_client E s w r).2 = []) := by
  refine ⟨?_, ?_, ?_, ?_, ?_⟩
  · unfold init_position
    simp only []
    split_ifs <;> rfl
  · unfold init_position
    simp only []
    split_ifs <;> rfl
  · unfold init_position
    simp only []
    split_ifs <;> rfl
  · intro d
    unfold init_position
    simp only []
    constructor
    · split_ifs <;> simp_all [emit]
    · split_ifs <;> simp_all [emit]
  · intro s w r hE hv hr
    rw [make_new_client_placings E hE s w r, if_neg (fun hc => hr hc.2)]

/-- C7 on a client at (0, 5): no request, position kept. -/
theorem C7_witness :
    ¬ (({ raw0 with x := 0, y := 5 } : Client).x = 0 ∧ ({ raw0 with x := 0, y := 5 } : Client).y = 0) ∧
    (init_position E0 { raw0 with x := 0, y := 5 } [] 100 200).2 = [] ∧
    (init_position E0 { raw0 with x := 0, y := 5 } [] 100 200).1.x = 0 ∧
    (init_position E0 { raw0 with x := 0, y := 5 } [] 100 200).1.y = 5 :=
  have h := C7_init_position_keeps_hinted_position E0 { raw0 with x := 0, y := 5 } [] 100 200
    (by decide)
  ⟨by decide, h.1, h.2.1, h.2.2.1⟩

/-- The model follows the program past `INT_MAX`: with the pointer at
`my = 2147483647` and a title bar of 20 the sum at line 226 wraps to `-2147483629`. -/
theorem init_position_wraps :
    (init_position E0 { raw0 with x := 0, y := 0, has_title := 1 } [] 100 2147483647).1.y =
      -2147483629 := by
  decide

/-- C8: on a client at (0,0), with the pointer at `(mx, my)` such that
`my + TITLEHEIGHT(c)` is a value of C `int`, `init_position` reads the pointer, sets the
position to `(mx, my + TITLEHEIGHT(c))` and calls `gravitate` with `REMOVE_GRAVITY`
once, on that position: the record returned is `gravitate` applied to the client placed
at `(mx, my + TITLEHEIGHT(c))` (with its size raised to the minimum), and the log gains
the pointer query and the one `gravitate` call and nothing else. Within
`make_new_client`, a window that is not viewable and whose attributes give the position
(0,0) gets exactly this one pointer query and one `REMOVE_GRAVITY` call. -/
theorem C8_init_position_at_origin_uses_pointer (E : Ext) (c : Client) (log : Log)
    (mx my : Int) (hx : c.x = 0) (hy : c.y = 0)
    (hlo : -2 ^ 31 ≤ my + E.TITLEHEIGHT
      { c with
        width := if c.width < E.MINWINWIDTH then E.MINWINWIDTH else c.width
        height := if c.height < E.MINWINHEIGHT then E.MINWINHEIGHT else c.height
        x := mx })
    (hhi : my + E.TITLEHEIGHT
      { c with
        width := if c.width < E.MINWINWIDTH then E.MINWINWIDTH else c.width
        height := if c.height < E.MINWINHEIGHT then E.MINWINHEIGHT else c.height
        x := mx } < 2 ^ 31) :
    (init_position E c log mx my).1 =
      E.gravitate
        { c with
          width := if c.width < E.MINWINWIDTH then E.MINWINWIDTH else c.width
          height := if c.height < E.MINWINHEIGHT then E.MINWINHEIGHT else c.height
          x := mx
          y := my + E.TITLEHEIGHT
            { c with
              width := if c.width < E.MINWINWIDTH then E.MINWINWIDTH else c.width
              height := if c.height < E.MINWINHEIGHT then E.MINWINHEIGHT else c.height
              x := mx } }
        Gravity.REMOVE_GRAVITY ∧
    (init_position E c log mx my).2 =
      log ++ [(Req.get_mouse_position, c.ignore_unmap),
        (Req.gravitate Gravity.REMOVE_GRAVITY, c.ignore_unmap)] ∧
    (∀ (s : WM) (w : Nat) (r : Replies), Framed E → r.attr.map_state ≠ IsViewable →
      r.attr.x = 0 → r.attr.y = 0 →
      placings (make_new_client E s w r).2 =
        [(Req.get_mouse_position, 1), (Req.gravitate Gravity.REMOVE_GRAVITY, 1)]) := by
  refine ⟨?_, ?_, ?_⟩
  · rw [← wrapInt_of_fits _ hlo hhi]
    unfold init_position
    simp only []
    split_ifs with h1 h2 h3 h3 h2 h3 h3
    all_goals first
      | rfl
      | exact absurd ⟨hx, hy⟩ h3
  · unfold init_position
    simp only []
    split_ifs with h1 h2 h3 h3 h2 h3 h3
    all_goals first
      | exact absurd ⟨hx, hy⟩ h3
      | simp [emit]
  · intro s w r hE hv h0 h1
    rw [make_new_client_placings E hE s w r, if_pos ⟨hv, h0, h1⟩]

/-- C8 on a client at (0, 0) with a title, pointer at (100, 200), title bar of 20. -/
theorem C8_witness :
    ({ raw0 with x := 0, y := 0, has_title := 1 } : Client).x = 0 ∧
    ({ raw0 with x := 0, y := 0, has_title := 1 } : Client).y = 0 ∧
    (init_position E0 { raw0 with x := 0, y := 0, has_title := 1 } [] 100 200).1.x = 100 ∧
    (init_position E0 { raw0 with x := 0, y := 0, has_title := 1 } [] 100 200).1.y = 200 + 20 ∧
    (init_position E0 { raw0 with x := 0, y := 0, has_title := 1 } [] 100 200).2 =
      [(Req.get_mouse_position, 55), (Req.gravitate Gravity.REMOVE_GRAVITY, 55)] :=
  have h := C8_init_position_at_origin_uses_pointer E0
    { raw0 with x := 0, y := 0, has_title := 1 } [] 100 200 rfl rfl (by decide) (by decide)
  ⟨rfl, rfl, congrArg Client.x h.1, congrArg Client.y h.1, h.2.1⟩

/-- The collaborators of `E0` keep to their fields. -/
theorem framed_E0 : Framed E0 :=
  ⟨fun _ => rfl, fun _ _ => rfl, fun _ => rfl, fun _ => rfl⟩

theorem mem_unmaps {e : Req × Int} {log : Log} (he : e ∈ log) (hu : unmapping e.1 = true) :
    e ∈ unmaps log :=
  List.mem_filter.mpr ⟨he, hu⟩

/-- If the unmapping requests of a log carry the counter values 1, 2, ... in order (one
or two of them), each is issued with the counter at least the number issued so far. -/
theorem counted_of_unmaps (log : Log) (a b : Req)
    (h : unmaps log = [(a, 1)] ∨ unmaps log = [(a, 1), (b, 2)])
    (pre post : Log) (q : Req) (n : Int) (hsplit : log = pre ++ (q, n) :: post)
    (hq : unmapping q = true) : ((unmaps pre).length : Int) + 1 ≤ n := by
  have hu : unmaps log = unmaps pre ++ (q, n) :: unmaps post := by
    rw [hsplit, unmaps_append, unmaps_cons, if_pos hq]
  rw [hu] at h
  rcases hp : unmaps pre with _ | ⟨x, _ | ⟨y, t⟩⟩
  · rw [hp] at h
    rcases h with h | h
    · simp at h; simp [h.1.2]
    · simp at h; simp [h.1.2]
  · rw [hp] at h
    rcases h with h | h
    · simp at h
    · simp at h; simp [h.2.1.2]
  · rw [hp] at h
    rcases h with h | h
    · simp at h
    · simp at h

/-- C1: in every run of `make_new_client` (with collaborators that keep to their
fields), each request that makes the server unmap the application window (the
`XReparentWindow` of `reparent`, the `XUnmapWindow` of an iconic viewable window) is
issued with `ignore_unmap` at least the number of such requests issued so far, that
request included; on return the counter is exactly the number issued, which is 1 or 2,
and 2 exactly when the explicit `XUnmapWindow` was issued. -/
theorem C1_ignore_unmap_precedes_unmapping_requests (E : Ext) (hE : Framed E) (s : WM)
    (w : Nat) (r : Replies) :
    (∀ (pre post : Log) (q : Req) (n : Int),
        (make_new_client E s w r).2 = pre ++ (q, n) :: post → unmapping q = true →
        ((unmaps pre).length : Int) + 1 ≤ n) ∧
    ((make_new_client E s w r).1.heap r.addr).ignore_unmap =
      ((unmaps (make_new_client E s w r).2).length : Int) ∧
    ((unmaps (make_new_client E s w r).2).length = 1 ∨
      (unmaps (make_new_client E s w r).2).length = 2) ∧
    ((unmaps (make_new_client E s w r).2).length = 2 ↔
      ∃ n, (Req.XUnmapWindow w, n) ∈ (make_new_client E s w r).2) := by
  obtain ⟨t, b, th, _, _, hcase⟩ := make_new_client_summary E hE s w r
  have hno : ∀ th', unmaps (make_new_client E s w r).2 = [(Req.XReparentWindow w r.frame 0 th', 1)] →
      ¬ ∃ n, (Req.XUnmapWindow w, n) ∈ (make_new_client E s w r).2 := by
    intro th' hu ⟨n, hn⟩
    have := mem_unmaps hn rfl
    rw [hu] at this
    simp at this
  rcases hcase with ⟨_, hk, hu, _⟩ | ⟨_, _, hk, hu, _⟩ | ⟨_, _, hk, hu, _⟩
  · refine ⟨fun pre post q n => counted_of_unmaps _ _ Req.err (Or.inl hu) pre post q n, ?_, ?_, ?_⟩
    · rw [kept_ignore_unmap hk, hu]; rfl
    · rw [hu]; exact Or.inl rfl
    · rw [hu]
      exact ⟨fun h => absurd h (by simp), fun h => absurd h (hno th hu)⟩
  · refine ⟨fun pre post q n => counted_of_unmaps _ _ _ (Or.inr hu) pre post q n, ?_, ?_, ?_⟩
    · rw [kept_ignore_unmap hk, hu]; rfl
    · rw [hu]; exact Or.inr rfl
    · rw [hu]
      refine ⟨fun _ => ⟨2, ?_⟩, fun _ => rfl⟩
      have hm : (Req.XUnmapWindow w, (2 : Int)) ∈ unmaps (make_new_client E s w r).2 := by
        rw [hu]; simp
      exact (List.mem_filter.mp hm).1
  · refine ⟨fun pre post q n => counted_of_unmaps _ _ Req.err (Or.inl hu) pre post q n, ?_, ?_, ?_⟩
    · rw [kept_ignore_unmap hk, hu]; rfl
    · rw [hu]; exact Or.inl rfl
    · rw [hu]
      exact ⟨fun h => absurd h (by simp), fun h => absurd h (hno th hu)⟩

/-- C1 on the run of `replies0`: the final counter is the number of unmapping requests. -/
theorem C1_witness :
    Framed E0 ∧
    ((make_new_client E0 wm0 7 replies0).1.heap replies0.addr).ignore_unmap =
      ((unmaps (make_new_client E0 wm0 7 replies0).2).length : Int) ∧
    ((unmaps (make_new_client E0 wm0 7 replies0).2).length = 1 ∨
      (unmaps (make_new_client E0 wm0 7 replies0).2).length = 2) :=
  ⟨framed_E0,
    (C1_ignore_unmap_precedes_unmapping_requests E0 framed_E0 wm0 7 replies0).2.1,
    (C1_ignore_unmap_precedes_unmapping_requests E0 framed_E0 wm0 7 replies0).2.2.1⟩

/-- C2, as stated, fails: a viewable window whose WM hints say `StateHint` with
`initial_state = IconicState`, and whose managed state is not iconic, is adopted with
`hidden = 0` and `ignore_unmap = 1`; the WM hints of a viewable window are never read
(there is no `XGetWMHints` in the log). -/
theorem C2_counterexample :
    replies0.attr.map_state = IsViewable ∧
    replies0.hints = some ⟨StateHint, IconicState⟩ ∧
    ((make_new_client E0 wm0 7 replies0).1.heap replies0.addr).hidden = 0 ∧
    ((make_new_client E0 wm0 7 replies0).1.heap replies0.addr).ignore_unmap = 1 ∧
    (∀ e ∈ (make_new_client E0 wm0 7 replies0).2, e.1 ≠ Req.XGetWMHints 7) := by
  decide

/-- C2, amended: a window that is viewable when it is adopted and whose managed state,
the one `get_wm_state` returns, is iconic, ends with `hidden = 1` and `ignore_unmap = 2`. -/
theorem C2_viewable_iconic_hidden_and_two_unmaps (E : Ext) (hE : Framed E) (s : WM) (w : Nat)
    (r : Replies) (hv : r.attr.map_state = IsViewable) (hi : s.wm_state w = IconicState) :
    ((make_new_client E s w r).1.heap r.addr).hidden = 1 ∧
    ((make_new_client E s w r).1.heap r.addr).ignore_unmap = 2 := by
  have hm : managed_state s w r = IconicState := by
    unfold managed_state
    rw [if_neg (by simpa using hv)]
    exact hi
  obtain ⟨t, b, th, _, _, hcase⟩ := make_new_client_summary E hE s w r
  rcases hcase with ⟨hn, _⟩ | ⟨_, _, hk, _⟩ | ⟨_, hnv, _⟩
  · exact absurd hm hn
  · exact ⟨kept_hidden hk, kept_ignore_unmap hk⟩
  · exact absurd hv hnv

/-- C2, amended, on a run: a viewable window in the iconic state. -/
theorem C2_witness :
    Framed E0 ∧ replies0.attr.map_state = IsViewable ∧ wmIconic.wm_state 7 = IconicState ∧
    ((make_new_client E0 wmIconic 7 replies0).1.heap replies0.addr).hidden = 1 ∧
    ((make_new_client E0 wmIconic 7 replies0).1.heap replies0.addr).ignore_unmap = 2 :=
  ⟨framed_E0, by decide, by decide,
    C2_viewable_iconic_hidden_and_two_unmaps E0 framed_E0 wmIconic 7 replies0
      (by decide) (by decide)⟩

/-- C10: a window that is not viewable when adopted and has no state hint (no WM hints,
or WM hints without `StateHint`) ends with `hidden = 0`; `XMapWindow` was issued on the
application window and `XMapRaised` on the frame, and `topmost_client` is the new client. -/
theorem C10_unhinted_window_is_mapped (E : Ext) (hE : Framed E) (s : WM) (w : Nat)
    (r : Replies) (hv : r.attr.map_state ≠ IsViewable)
    (hh : ∀ hints, r.hints = some hints → Int.land hints.flags StateHint = 0) :
    ((make_new_client E s w r).1.heap r.addr).hidden = 0 ∧
    ((make_new_client E s w r).1.heap r.addr).window = w ∧
    ((make_new_client E s w r).1.heap r.addr).frame = r.frame ∧
    (Req.XMapWindow w, 1) ∈ (make_new_client E s w r).2 ∧
    (Req.XMapRaised r.frame, 1) ∈ (make_new_client E s w r).2 ∧
    (make_new_client E s w r).1.topmost_client = some r.addr := by
  have hm : managed_state s w r = NormalState := by
    unfold managed_state
    rw [if_pos hv]
    cases hr : r.hints with
    | none => rfl
    | some hints => simp [hh hints hr]
  have hne : managed_state s w r ≠ IconicState := by
    rw [hm]; decide
  obtain ⟨t, b, th, _, _, hcase⟩ := make_new_client_summary E hE s w r
  rcases hcase with ⟨_, hk, _, ht, hm1, hm2⟩ | ⟨hi, _⟩ | ⟨hi, _⟩
  · exact ⟨kept_hidden hk, kept_window hk, kept_frame hk, hm1, hm2, ht⟩
  · exact absurd hi hne
  · exact absurd hi hne

/-- C10 on a run: a window that is not viewable and has no WM hints. -/
theorem C10_witness :
    Framed E0 ∧ repliesNew.attr.map_state ≠ IsViewable ∧ repliesNew.hints = none ∧
    ((make_new_client E0 wm0 7 repliesNew).1.heap repliesNew.addr).hidden = 0 ∧
    (Req.XMapWindow 7, 1) ∈ (make_new_client E0 wm0 7 repliesNew).2 ∧
    (Req.XMapRaised repliesNew.frame, 1) ∈ (make_new_client E0 wm0 7 repliesNew).2 ∧
    (make_new_client E0 wm0 7 repliesNew).1.topmost_client = some repliesNew.addr :=
  have h := C10_unhinted_window_is_mapped E0 framed_E0 wm0 7 repliesNew (by decide)
    (by intro hints hr; simp [repliesNew] at hr)
  ⟨framed_E0, by decide, rfl, h.1, h.2.2.2.1, h.2.2.2.2.1, h.2.2.2.2.2⟩

theorem toInt32_zero : toInt32 0 = 0 := by decide

theorem toInt32_eq_zero (n : Nat) (hn : n < 2 ^ 32) : toInt32 n = 0 ↔ n = 0 := by
  unfold toInt32
  rw [Nat.mod_eq_of_lt hn]
  split_ifs with h
  · exact Int.natCast_eq_zero
  · constructor
    · intro h0
      have : (n : Int) < 2 ^ 32 := by exact_mod_cast hn
      omega
    · intro h0
      rw [h0] at h
      exact absurd (by decide) h

theorem make_new_client_decor (E : Ext) (hE : Framed E) (s : WM) (w : Nat) (r : Replies) :
    ((make_new_client E s w r).1.heap r.addr).has_title =
      (stage_decor E r (stage_init E w r).1 (stage_init E w r).2).1.has_title ∧
    ((make_new_client E s w r).1.heap r.addr).has_border =
      (stage_decor E r (stage_init E w r).1 (stage_init E w r).2).1.has_border := by
  obtain ⟨t, b, th, ht, hb, hcase⟩ := make_new_client_summary E hE s w r
  rcases hcase with ⟨_, hk, _⟩ | ⟨_, _, hk, _⟩ | ⟨_, _, hk, _⟩ <;>
    exact ⟨(kept_has_title hk).trans ht.symm, (kept_has_border hk).trans hb.symm⟩

/-- C5, as stated, fails, with the Motif values of the constants. With
`MWM_HINTS_DECORATIONS` set and `decorations = 0` (border bit cleared) the client gets
`has_title = 0`: the title flag does not stay at 1. With `decorations = MWM_DECOR_ALL`
(border bit cleared as well) the hint is not applied and `has_border` stays 1. -/
theorem C5_counterexample :
    (get_mwm_hints E0 raw0 [] 7 (mwmProp 2 0) replies0.mhints).1 = true ∧
    toCARD32 ((mwmProp 2 0).data 0) &&& E0.MWM_HINTS_DECORATIONS ≠ 0 ∧
    toCARD32 ((mwmProp 2 0).data 2) &&& E0.MWM_DECOR_BORDER = 0 ∧
    ((make_new_client E0 wm0 7 { replies0 with prop := mwmProp 2 0 }).1.heap 1000).has_title = 0 ∧
    (get_mwm_hints E0 raw0 [] 7 (mwmProp 2 1) replies0.mhints).1 = true ∧
    toCARD32 ((mwmProp 2 1).data 0) &&& E0.MWM_HINTS_DECORATIONS ≠ 0 ∧
    toCARD32 ((mwmProp 2 1).data 2) &&& E0.MWM_DECOR_BORDER = 0 ∧
    ((make_new_client E0 wm0 7 { replies0 with prop := mwmProp 2 1 }).1.heap 1000).has_border = 1 := by
  decide

/-- C5, amended: when the decoration property reads well with `MWM_HINTS_DECORATIONS`
set in `flags`, then with `MWM_DECOR_ALL` clear in `decorations` the client gets
`has_title = decorations & MWM_DECOR_TITLE` and `has_border = decorations &
MWM_DECOR_BORDER`, so that a cleared border bit gives `has_border = 0` and `has_title`
is non-zero exactly when the title bit is set; with `MWM_DECOR_ALL` set both flags stay 1. -/
theorem C5_decoration_flags_follow_the_mask (E : Ext) (hE : Framed E) (s : WM) (w : Nat)
    (r : Replies) (h1 : r.prop.success = Success) (h2 : r.prop.real_type = E.mwm_hints)
    (h3 : E.mwm_hints ≠ None) (h4 : r.prop.real_format = 32)
    (h5 : E.PROP_MWM_HINTS_ELEMENTS ≤ r.prop.items_read)
    (hflag : toCARD32 (r.prop.data 0) &&& E.MWM_HINTS_DECORATIONS ≠ 0) :
    (toCARD32 (r.prop.data 2) &&& E.MWM_DECOR_ALL = 0 →
      ((make_new_client E s w r).1.heap r.addr).has_title =
        toInt32 (toCARD32 (r.prop.data 2) &&& E.MWM_DECOR_TITLE) ∧
      ((make_new_client E s w r).1.heap r.addr).has_border =
        toInt32 (toCARD32 (r.prop.data 2) &&& E.MWM_DECOR_BORDER) ∧
      (toCARD32 (r.prop.data 2) &&& E.MWM_DECOR_BORDER = 0 →
        ((make_new_client E s w r).1.heap r.addr).has_border = 0) ∧
      (((make_new_client E s w r).1.heap r.addr).has_title ≠ 0 ↔
        toCARD32 (r.prop.data 2) &&& E.MWM_DECOR_TITLE ≠ 0)) ∧
    (toCARD32 (r.prop.data 2) &&& E.MWM_DECOR_ALL ≠ 0 →
      ((make_new_client E s w r).1.heap r.addr).has_title = 1 ∧
      ((make_new_client E s w r).1.heap r.addr).has_border = 1) := by
  obtain ⟨ht, hb⟩ := make_new_client_decor E hE s w r
  have ka := stage_init_kept E hE w r
  generalize stage_init E w r = a at ht hb ka
  obtain ⟨hg1, hg2⟩ := get_mwm_hints_read E a.1 a.2 a.1.window r.prop r.mhints h1 h2 h3 h4 h5
  rw [stage_decor_true E r a.1 a.2 hg1, hg2] at ht hb
  constructor
  · intro hall
    rw [if_pos ⟨hflag, by simpa using hall⟩] at ht hb
    have hlt : toCARD32 (r.prop.data 2) &&& E.MWM_DECOR_TITLE < 2 ^ 32 :=
      lt_of_le_of_lt Nat.and_le_left (Nat.mod_lt _ (by decide))
    refine ⟨ht, hb, ?_, ?_⟩
    · intro hbit
      rw [hb]
      show toInt32 (toCARD32 (r.prop.data 2) &&& E.MWM_DECOR_BORDER) = 0
      rw [hbit]
      exact toInt32_zero
    · rw [ht]
      exact not_congr (toInt32_eq_zero _ hlt)
  · intro hall
    rw [if_neg (fun hc => hc.2 hall)] at ht hb
    exact ⟨ht.trans (kept_has_title ka), hb.trans (kept_has_border ka)⟩

/-- C5, amended, on a run: `decorations = MWM_DECOR_TITLE` gives a title and no border. -/
theorem C5_witness :
    Framed E0 ∧
    ((make_new_client E0 wm0 7 { replies0 with prop := mwmProp 2 8 }).1.heap 1000).has_title = 8 ∧
    ((make_new_client E0 wm0 7 { replies0 with prop := mwmProp 2 8 }).1.heap 1000).has_border = 0 :=
  have h := (C5_decoration_flags_follow_the_mask E0 framed_E0 wm0 7
    { replies0 with prop := mwmProp 2 8 } (by decide) (by decide) (by decide) (by decide)
    (by decide) (by decide)).1 (by decide)
  ⟨framed_E0, h.1, h.2.1⟩

theorem make_new_client_heap (E : Ext) (s : WM) (w : Nat) (r : Replies) :
    (make_new_client E s w r).1.heap =
      Function.update s.heap r.addr ((make_new_client E s w r).1.heap r.addr) := by
  rw [make_new_client_eq]
  simp only [stages, stage_finish_heap, Function.update_same]

theorem make_new_client_clients (E : Ext) (s : WM) (w : Nat) (r : Replies) :
    (make_new_client E s w r).1.clients =
      E.reorder_clients_by_x_position (make_new_client E s w r).1.heap
        (append_tail s.clients r.addr) := rfl

theorem make_new_client_log_end (E : Ext) (s : WM) (w : Nat) (r : Replies) :
    ∃ log : Log, (make_new_client E s w r).2 =
      log ++ [(Req.check_focus, ((make_new_client E s w r).1.heap r.addr).ignore_unmap),
        (Req.XSync, ((make_new_client E s w r).1.heap r.addr).ignore_unmap),
        (Req.XUngrabServer, ((make_new_client E s w r).1.heap r.addr).ignore_unmap),
        (Req.reorder_clients_by_x_position,
          ((make_new_client E s w r).1.heap r.addr).ignore_unmap),
        (Req.redraw_taskbar, ((make_new_client E s w r).1.heap r.addr).ignore_unmap)] := by
  rw [make_new_client_eq]
  simp only [stages, stage_finish_heap, stage_finish_log, Function.update_same]
  exact ⟨_, rfl⟩

theorem make_new_client_focus (E : Ext) (s : WM) (w : Nat) (r : Replies) :
    (make_new_client E s w r).1.focused_client =
      if E.check_focus s.focused_client r.addr ((make_new_client E s w r).1.heap r.addr) = none
      then some r.addr
      else E.check_focus s.focused_client r.addr ((make_new_client E s w r).1.heap r.addr) := by
  rw [make_new_client_eq]
  simp only [stages, stage_finish_heap, Function.update_same]
  rfl

/-- C6: on a malformed decoration property (its type is not the `mwm_hints` atom, or
its format is not 32, or it has fewer than `PROP_MWM_HINTS_ELEMENTS` items)
`get_mwm_hints` returns `False` and leaves the hint record as it was, and
`make_new_client` ends with `has_title = 1` and `has_border = 1` after running to its
end: the window is reparented and the last entry of the log is `redraw_taskbar`. -/
theorem C6_malformed_hints_keep_default_decorations (E : Ext) (hE : Framed E) (s : WM)
    (w : Nat) (r : Replies)
    (hbad : r.prop.real_type ≠ E.mwm_hints ∨ r.prop.real_format ≠ 32 ∨
      r.prop.items_read < E.PROP_MWM_HINTS_ELEMENTS) :
    (∀ (c : Client) (log : Log) (w' : Nat) (hints : PropMwmHints),
      (get_mwm_hints E c log w' r.prop hints).1 = false ∧
      (get_mwm_hints E c log w' r.prop hints).2.1 = hints) ∧
    ((make_new_client E s w r).1.heap r.addr).has_title = 1 ∧
    ((make_new_client E s w r).1.heap r.addr).has_border = 1 ∧
    (∃ th n, (Req.XReparentWindow w r.frame 0 th, n) ∈ (make_new_client E s w r).2) ∧
    (make_new_client E s w r).2.getLast? =
      some (Req.redraw_taskbar, ((make_new_client E s w r).1.heap r.addr).ignore_unmap) := by
  obtain ⟨ht, hb⟩ := make_new_client_decor E hE s w r
  have ka := stage_init_kept E hE w r
  generalize stage_init E w r = a at ht hb ka
  have hf := (get_mwm_hints_malformed E a.1 a.2 a.1.window r.prop r.mhints hbad).1
  rw [stage_decor_false E r a.1 a.2 hf] at ht hb
  refine ⟨fun c log w' hints => get_mwm_hints_malformed E c log w' r.prop hints hbad,
    ht.trans (kept_has_title ka), hb.trans (kept_has_border ka), ?_, ?_⟩
  · obtain ⟨_, _, th, _, _, hcase⟩ := make_new_client_summary E hE s w r
    have hm : ∀ l : Log, (Req.XReparentWindow w r.frame 0 th, (1 : Int)) ∈ l →
        unmaps (make_new_client E s w r).2 = l →
        (Req.XReparentWindow w r.frame 0 th, (1 : Int)) ∈ (make_new_client E s w r).2 := by
      intro l hl hu
      rw [← hu] at hl
      exact (List.mem_filter.mp hl).1
    rcases hcase with ⟨_, _, hu, _⟩ | ⟨_, _, _, hu, _⟩ | ⟨_, _, _, hu, _⟩
    · exact ⟨th, 1, hm _ (by simp) hu⟩
    · exact ⟨th, 1, hm _ (by simp) hu⟩
    · exact ⟨th, 1, hm _ (by simp) hu⟩
  · obtain ⟨log, hl⟩ := make_new_client_log_end E s w r
    rw [hl]
    simp

/-- C6 on a run: a property of format 8 leaves both decoration flags at 1. -/
theorem C6_witness :
    Framed E0 ∧ badProp.real_format ≠ 32 ∧
    ((make_new_client E0 wm0 7 { replies0 with prop := badProp }).1.heap 1000).has_title = 1 ∧
    ((make_new_client E0 wm0 7 { replies0 with prop := badProp }).1.heap 1000).has_border = 1 :=
  have h := C6_malformed_hints_keep_default_decorations E0 framed_E0 wm0 7
    { replies0 with prop := badProp } (Or.inr (Or.inl (by decide)))
  ⟨framed_E0, by decide, h.2.1, h.2.2.1⟩

/-- C3, as stated, fails: adopting window 7 into a registry that already holds a client
for window 7 appends a second client for it; two clients have that handle afterwards. -/
theorem C3_counterexample :
    windows wmOne = [7] ∧
    windows (make_new_client E0 wmOne 7 replies0).1 = [7, 7] ∧
    (windows (make_new_client E0 wmOne 7 replies0).1).count 7 = 2 := by
  decide

/-- C3, amended: `make_new_client(w)` does not look for an existing client; it always
appends one new client with handle `w`. Whatever the registry held, it has one client
more afterwards and the number of clients with handle `w` has gone up by one. -/
theorem C3_adoption_always_adds_a_client (E : Ext) (hE : Framed E)
    (hperm : ∀ (heap : Nat → Client) (l : List Nat),
      (E.reorder_clients_by_x_position heap l).Perm l)
    (s : WM) (w : Nat) (r : Replies) (hfresh : r.addr ∉ s.clients) :
    (make_new_client E s w r).1.clients.length = s.clients.length + 1 ∧
    (windows (make_new_client E s w r).1).count w = (windows s).count w + 1 := by
  have hw : ((make_new_client E s w r).1.heap r.addr).window = w := by
    obtain ⟨_, _, _, _, _, hcase⟩ := make_new_client_summary E hE s w r
    rcases hcase with ⟨_, hk, _⟩ | ⟨_, _, hk, _⟩ | ⟨_, _, hk, _⟩ <;> exact kept_window hk
  have hp := hperm (make_new_client E s w r).1.heap (append_tail s.clients r.addr)
  rw [← make_new_client_clients, append_tail_eq] at hp
  constructor
  · rw [hp.length_eq]; simp
  · unfold windows
    rw [(hp.map _).count_eq, make_new_client_heap, List.map_append,
      windows_update s.clients s.heap r.addr _ hfresh, List.count_append]
    simp [hw]

/-- C3, amended, on a run: one client for window 7 before, one more after. -/
theorem C3_witness :
    Framed E0 ∧ replies0.addr ∉ wmOne.clients ∧
    (windows (make_new_client E0 wmOne 7 replies0).1).count 7 = (windows wmOne).count 7 + 1 :=
  ⟨framed_E0, by decide,
    (C3_adoption_always_adds_a_client E0 framed_E0 (fun _ l => List.Perm.refl l) wmOne 7
      replies0 (by decide)).2⟩

/-- C4, as stated, fails: with nothing focused, a window that is adopted iconic (hidden)
is passed to `check_focus` and becomes `focused_client`, even when `check_focus` itself
leaves `focused_client` alone. -/
theorem C4_counterexample :
    wm0.focused_client = none ∧
    ((make_new_client E0 wm0 7 repliesIconic).1.heap 1000).hidden = 1 ∧
    (make_new_client E0 wm0 7 repliesIconic).1.focused_client = some 1000 ∧
    (Req.check_focus, 1) ∈ (make_new_client E0 wm0 7 repliesIconic).2 := by
  decide

/-- C4, amended: on every adoption, hidden or not, `make_new_client` calls
`check_focus` on the new client and then makes the new client `focused_client` if
`focused_client` is `NULL`; on return `focused_client` is never `NULL`, and a value that
is not `NULL` after `check_focus` is left as `check_focus` left it. -/
theorem C4_focus_goes_to_new_client_when_none (E : Ext) (s : WM) (w : Nat) (r : Replies) :
    (Req.check_focus, ((make_new_client E s w r).1.heap r.addr).ignore_unmap) ∈
      (make_new_client E s w r).2 ∧
    (make_new_client E s w r).1.focused_client ≠ none ∧
    (E.check_focus s.focused_client r.addr ((make_new_client E s w r).1.heap r.addr) = none →
      (make_new_client E s w r).1.focused_client = some r.addr) ∧
    (∀ p, E.check_focus s.focused_client r.addr ((make_new_client E s w r).1.heap r.addr) = some p →
      (make_new_client E s w r).1.focused_client = some p) := by
  have hf := make_new_client_focus E s w r
  refine ⟨?_, ?_, ?_, ?_⟩
  · obtain ⟨log, hl⟩ := make_new_client_log_end E s w r
    rw [hl]
    simp
  · rw [hf]
    split_ifs with h
    · simp
    · exact h
  · intro h
    rw [hf, if_pos h]
  · intro p h
    rw [hf, h]
    simp

/-- C4 on a run: nothing is focused, `check_focus` leaves it so, and the window adopted
iconic becomes `focused_client`. -/
theorem C4_witness :
    E0.check_focus wm0.focused_client repliesIconic.addr
      ((make_new_client E0 wm0 7 repliesIconic).1.heap repliesIconic.addr) = none ∧
    (make_new_client E0 wm0 7 repliesIconic).1.focused_client = some repliesIconic.addr :=
  ⟨rfl, (C4_focus_goes_to_new_client_when_none E0 wm0 7 repliesIconic).2.2.1 rfl⟩

theorem make_new_client_window (E : Ext) (hE : Framed E) (s : WM) (w : Nat) (r : Replies) :
    ((make_new_client E s w r).1.heap r.addr).window = w := by
  obtain ⟨_, _, _, _, _, hcase⟩ := make_new_client_summary E hE s w r
  rcases hcase with ⟨_, hk, _⟩ | ⟨_, _, hk, _⟩ | ⟨_, _, hk, _⟩ <;> exact kept_window hk

theorem make_new_client_appended (E : Ext) (s : WM) (w : Nat) (r : Replies) :
    (make_new_client E s w r).1.clients =
      E.reorder_clients_by_x_position (make_new_client E s w r).1.heap
        (s.clients ++ [r.addr]) := by
  rw [← append_tail_eq]
  rfl

theorem make_new_client_windows (E : Ext) (hE : Framed E) (s : WM) (w : Nat) (r : Replies)
    (hfresh : r.addr ∉ s.clients) :
    (s.clients ++ [r.addr]).map (fun p => ((make_new_client E s w r).1.heap p).window) =
      windows s ++ [w] := by
  have hw := make_new_client_window E hE s w r
  rw [make_new_client_heap] at hw ⊢
  rw [List.map_append, windows_update s.clients s.heap r.addr _ hfresh]
  simp only [List.map_cons, List.map_nil, hw]
  rfl

/-- C9: on a registry with pairwise distinct window handles and no client for `w`,
`make_new_client(w)`, given a fresh record by `malloc` and collaborators that keep to
their fields, hands to `reorder_clients_by_x_position` the old registry followed by the
new client: the new client is last and the earlier clients are in their earlier order,
with their records untouched; the new record has handle `w`, so exactly one client of
that registry has handle `w` and its handles are pairwise distinct. When the reorder
leaves the order alone this is the registry on return, and when it permutes the
registry the registry on return still has exactly one client with handle `w` and
pairwise distinct handles. -/
theorem C9_append_keeps_handles_distinct (E : Ext) (hE : Framed E) (s : WM) (w : Nat)
    (r : Replies) (hfresh : r.addr ∉ s.clients) (hdistinct : (windows s).Nodup)
    (hnew : w ∉ windows s) :
    append_tail s.clients r.addr = s.clients ++ [r.addr] ∧
    (make_new_client E s w r).1.clients =
      E.reorder_clients_by_x_position (make_new_client E s w r).1.heap
        (s.clients ++ [r.addr]) ∧
    (∀ p ∈ s.clients, (make_new_client E s w r).1.heap p = s.heap p) ∧
    ((make_new_client E s w r).1.heap r.addr).window = w ∧
    (s.clients ++ [r.addr]).map (fun p => ((make_new_client E s w r).1.heap p).window) =
      windows s ++ [w] ∧
    (windows s ++ [w]).count w = 1 ∧
    (windows s ++ [w]).Nodup ∧
    ((∀ (heap : Nat → Client) (l : List Nat), E.reorder_clients_by_x_position heap l = l) →
      (make_new_client E s w r).1.clients = s.clients ++ [r.addr] ∧
      (make_new_client E s w r).1.clients.getLast? = some r.addr ∧
      windows (make_new_client E s w r).1 = windows s ++ [w]) ∧
    ((∀ (heap : Nat → Client) (l : List Nat), (E.reorder_clients_by_x_position heap l).Perm l) →
      (make_new_client E s w r).1.clients.length = s.clients.length + 1 ∧
      (windows (make_new_client E s w r).1).count w = 1 ∧
      (windows (make_new_client E s w r).1).Nodup) := by
  have happ := make_new_client_appended E s w r
  have hwin := make_new_client_windows E hE s w r hfresh
  have hcount : (windows s ++ [w]).count w = 1 := by
    rw [List.count_append, List.count_eq_zero_of_not_mem hnew]
    simp
  have hnodup : (windows s ++ [w]).Nodup := by
    refine List.Nodup.append hdistinct (List.nodup_singleton w) ?_
    intro x hx hx2
    rw [List.mem_singleton] at hx2
    exact hnew (hx2 ▸ hx)
  refine ⟨append_tail_eq _ _, happ, ?_, make_new_client_window E hE s w r, hwin, hcount,
    hnodup, ?_, ?_⟩
  · intro p hp
    have hne : p ≠ r.addr := fun e => hfresh (e ▸ hp)
    rw [make_new_client_heap]
    exact Function.update_noteq hne _ s.heap
  · intro hid
    have hc : (make_new_client E s w r).1.clients = s.clients ++ [r.addr] := by
      rw [happ, hid]
    refine ⟨hc, ?_, ?_⟩
    · rw [hc]; simp
    · unfold windows at hwin ⊢
      rw [hc]
      exact hwin
  · intro hperm
    have hp := hperm (make_new_client E s w r).1.heap (s.clients ++ [r.addr])
    rw [← happ] at hp
    have hpw : (windows (make_new_client E s w r).1).Perm (windows s ++ [w]) := by
      rw [← hwin]
      exact hp.map _
    refine ⟨?_, ?_, ?_⟩
    · rw [hp.length_eq]; simp
    · rw [hpw.count_eq]; exact hcount
    · exact hpw.nodup_iff.mpr hnodup

/-- C9 on the registry `wmTwo`, adopting window 7 at address 1000. -/
theorem C9_witness :
    Framed E0 ∧ replies0.addr ∉ wmTwo.clients ∧ (windows wmTwo).Nodup ∧ 7 ∉ windows wmTwo ∧
    (make_new_client E0 wmTwo 7 replies0).1.clients = [700, 800, 1000] ∧
    windows (make_new_client E0 wmTwo 7 replies0).1 = [700, 800, 7] :=
  have h := C9_append_keeps_handles_distinct E0 framed_E0 wmTwo 7 replies0
    (by decide) (by decide) (by decide)
  ⟨framed_E0, by decide, by decide, by decide,
    (h.2.2.2.2.2.2.2.1 (fun _ _ => rfl)).1, (h.2.2.2.2.2.2.2.1 (fun _ _ => rfl)).2.2⟩

end WindowLab
